import Mathlib

/-!
# GO-API payment use case: a shallow embedding and its checked properties

The development follows the Go sources

* `internal/domain/model/errors.go`, `internal/domain/model/payment.go`
* `internal/domain/service/transaction.go`
* `internal/usecase/payment.go`
* `internal/infrastructure/database/postgres/payment_repository.go`
* `internal/interface/handler/response.go`, `internal/interface/handler/payment_handler.go`

Go strings are byte sequences, so they are lists of bytes here; `len` is the list length
and `s[:n]` is a checked prefix.  A Go `error` result is an `Option GoError` (`none` is
`nil`), a `(T, error)` result is an `Except GoError T`.  A `*model.Payment` argument of
an interface method is the payment the pointer refers to, and the method returns that payment
as it leaves it, so that a write through the pointer is visible to the caller.  Logging calls
are not modelled.
-/

set_option autoImplicit false

namespace GoApi

/-! ## Strings -/

/-- One byte of a Go string. -/
abbrev Byte := Fin 256

/-- Go `string`: an immutable sequence of bytes. -/
abbrev GoString := List Byte

/-- Bytes of a string literal of the source.  Every literal of the source is ASCII, where
the encoding is one byte per character, the code point. -/
def str (s : String) : GoString := s.toList.map fun c => Fin.ofNat c.toNat

/-- Outcome of running Go code that may hit a run-time panic. -/
inductive Run (α : Type) where
  | ret (a : α)
  | panicked (msg : String)
deriving DecidableEq, Repr

/-- Go slice expression `s[:hi]` on a string: panics unless `hi <= len(s)`. -/
def sliceTo (s : GoString) (hi : Nat) : Run GoString :=
  if hi ≤ s.length then Run.ret (s.take hi) else Run.panicked "slice bounds out of range"

/-! ## `internal/domain/model/errors.go` -/

/-- Go `type ErrorType string`. -/
abbrev ErrorType := GoString

def ErrorTypeValidation : ErrorType := str "validation"
def ErrorTypeNotFound : ErrorType := str "not_found"
def ErrorTypeInternal : ErrorType := str "internal"

/-- Non-nil values of the Go interface `error` that occur in the program:
`model` is a `*model.Error` with its fields `Type` (here `Typ`), `Message` and `Err` (which
may be nil), `errorf` is the value of `fmt.Errorf(format, err)` for a format with one `%w`
verb, and `foreign` is any other error value (database driver, random source, processor). -/
inductive GoError where
  | model (Typ : ErrorType) (Message : GoString) (Err : Option GoError)
  | errorf (format : GoString) (wrapped : GoError)
  | foreign (msg : GoString)

def NewValidationError (message : GoString) : GoError :=
  GoError.model ErrorTypeValidation message none

def NewNotFoundError (message : GoString) : GoError :=
  GoError.model ErrorTypeNotFound message none

def NewInternalError (err : Option GoError) : GoError :=
  GoError.model ErrorTypeInternal (str "internal error occurred") err

/-- Type tag of an error when it is a `*model.Error` (the type assertion of the handler). -/
def GoError.domainType : GoError → Option ErrorType
  | GoError.model t _ _ => some t
  | _ => none

/-- Cause carried in the `Err` field of a `*model.Error`. -/
def GoError.cause : GoError → Option GoError
  | GoError.model _ _ e => e
  | _ => none

/-! ## `internal/usecase/payment.go`: input validation -/

def CurrencyJPY : GoString := str "JPY"
def CurrencyUSD : GoString := str "USD"

def MaxDescriptionLength : Nat := 500
def MaxCustomerIDLength : Nat := 100
def MinAmount : Int := 1
def MaxAmount : Int := 10000000

structure CreatePaymentInput where
  Amount : Int
  Currency : GoString
  Description : GoString
  CustomerID : GoString
  PaymentMethod : GoString
  OrderID : GoString
deriving DecidableEq, Repr

/-- Lookup in the map literal `validMethods`; an absent key reads as `false`. -/
def validMethods (method : GoString) : Bool :=
  if method = str "credit_card" then true
  else if method = str "bank_transfer" then true
  else if method = str "convenience_store" then true
  else false

/-- Lookup in the map literal `validCurrencies`; an absent key reads as `false`. -/
def validCurrencies (currency : GoString) : Bool :=
  if currency = CurrencyJPY then true
  else if currency = CurrencyUSD then true
  else false

def validatePaymentMethod (method : GoString) : Option GoError :=
  if method = [] then some (NewValidationError (str "payment_method is required"))
  else if !validMethods method then some (NewValidationError (str "unsupported payment method"))
  else none

def validateCreatePaymentInput (input : CreatePaymentInput) : Option GoError :=
  if input.Amount ≤ 0 then some (NewValidationError (str "amount must be positive"))
  else if input.Currency = [] then some (NewValidationError (str "currency is required"))
  else if input.CustomerID = [] then some (NewValidationError (str "customer_id is required"))
  else if input.Amount ≤ 0 then some (NewValidationError (str "amount must be positive"))
  else if input.Amount > MaxAmount then
    some (NewValidationError (str "amount exceeds maximum allowed"))
  else if input.Currency = [] then some (NewValidationError (str "currency is required"))
  else if !validCurrencies input.Currency then
    some (NewValidationError (str "unsupported currency"))
  else
    match validatePaymentMethod input.PaymentMethod with
    | some err => some err
    | none => none

/-- The rule list of the specification, in its order: each rule is the condition under
which it is violated and the message of its validation error. -/
def validationRules (input : CreatePaymentInput) : List (Bool × GoString) :=
  [ (decide (input.Amount ≤ 0), str "amount must be positive"),
    (decide (input.Currency = []), str "currency is required"),
    (decide (input.CustomerID = []), str "customer_id is required"),
    (decide (input.Amount > 10000000), str "amount exceeds maximum allowed"),
    (decide (¬ (input.Currency = str "USD" ∨ input.Currency = str "JPY")),
      str "unsupported currency"),
    (decide (input.PaymentMethod = []), str "payment_method is required"),
    (decide (¬ (input.PaymentMethod = str "credit_card"
        ∨ input.PaymentMethod = str "bank_transfer"
        ∨ input.PaymentMethod = str "convenience_store")), str "unsupported payment method") ]

/-- The validation error of the first violated rule of the specification, if any. -/
def firstViolation (input : CreatePaymentInput) : Option GoError :=
  ((validationRules input).find? fun r => r.1).map fun r => NewValidationError r.2

/-- The accepted inputs as the specification describes them. -/
def ValidInput (input : CreatePaymentInput) : Prop :=
  1 ≤ input.Amount ∧ input.Amount ≤ 10000000
    ∧ (input.Currency = str "USD" ∨ input.Currency = str "JPY")
    ∧ input.CustomerID ≠ []
    ∧ (input.PaymentMethod = str "credit_card" ∨ input.PaymentMethod = str "bank_transfer"
        ∨ input.PaymentMethod = str "convenience_store")

/-! ## `internal/domain/service/transaction.go` -/

/-- Calendar reading of a `time.Time` in its location: the part of the value that `Format`
with the layout `20060102150405` depends on.  The ranges are those the accessors of the Go
`time` package guarantee. -/
structure Time where
  Year : Int
  Month : Nat
  Day : Nat
  Hour : Nat
  Minute : Nat
  Second : Nat
  month_range : 1 ≤ Month ∧ Month ≤ 12
  day_range : 1 ≤ Day ∧ Day ≤ 31
  hour_range : Hour ≤ 23
  minute_range : Minute ≤ 59
  second_range : Second ≤ 59
deriving DecidableEq

/-- ASCII digit of `d % 10`. -/
def digit (d : Nat) : Byte := Fin.ofNat (48 + d % 10)

/-- Decimal digits of `u`, most significant first, produced by repeated division by ten;
the first argument bounds the number of digits written. -/
def decimalAux : Nat → Nat → GoString
  | 0, _ => []
  | fuel + 1, u => if u < 10 then [digit u] else decimalAux fuel (u / 10) ++ [digit (u % 10)]

/-- Decimal form of `u` (`0` is the single digit `0`). -/
def decimal (u : Nat) : GoString := decimalAux (u + 1) u

/-- Go `time.appendInt`: the decimal form of `x`, a minus sign first when `x < 0`, padded
with leading zeros when the digits are fewer than `width`. -/
def appendInt (x : Int) (width : Nat) : GoString :=
  (if x < 0 then str "-" else []) ++
    List.replicate (width - (decimal x.natAbs).length) (digit 0) ++ decimal x.natAbs

/-- Go `t.Format("20060102150405")`: the layout is the sequence of the six standard
chunks `2006`, `01`, `02`, `15`, `04`, `05`. -/
def Time.Format20060102150405 (t : Time) : GoString :=
  appendInt t.Year 4 ++ appendInt t.Month 2 ++ appendInt t.Day 2
    ++ appendInt t.Hour 2 ++ appendInt t.Minute 2 ++ appendInt t.Second 2

/-- Table `hextable` of `encoding/hex`. -/
def hextable : GoString := str "0123456789abcdef"

/-- Go `hex.EncodeToString`: two table characters per byte, high nibble first. -/
def EncodeToString : List Byte → GoString
  | [] => []
  | v :: rest =>
    hextable.getD (v.val / 16) 0 :: hextable.getD (v.val % 16) 0 :: EncodeToString rest

/-- Go `fmt.Sprintf("%s_%s_%s", a, b, c)`. -/
def Sprintf3 (a b c : GoString) : GoString := a ++ str "_" ++ b ++ str "_" ++ c

structure DefaultTransactionIDGenerator where
  pfx : GoString
deriving DecidableEq

def NewTransactionIDGenerator (pfx : GoString) : DefaultTransactionIDGenerator :=
  { pfx := pfx }

/-- `DefaultTransactionIDGenerator.Generate`.  Its two reads of the outside world are
arguments: `now` is the value of `time.Now()`, and `rand` is the outcome of `rand.Read` on
the 8-byte buffer, namely the buffer after the call and the error. -/
def DefaultTransactionIDGenerator.Generate (g : DefaultTransactionIDGenerator) (now : Time)
    (rand : List Byte × Option GoError) : Except GoError GoString :=
  let timestamp := now.Format20060102150405
  match rand.2 with
  | some err => Except.error (GoError.errorf (str "failed to generate random bytes: %w") err)
  | none =>
    let randomHex := EncodeToString rand.1
    let transactionID := Sprintf3 g.pfx timestamp randomHex
    Except.ok transactionID

/-- The field `generator` has interface type in the source; `DefaultTransactionIDGenerator`
is its only implementation and the only value the constructor stores. -/
structure PaymentTransactionIDGenerator where
  generator : DefaultTransactionIDGenerator
deriving DecidableEq

def NewPaymentTransactionIDGenerator : PaymentTransactionIDGenerator :=
  { generator := NewTransactionIDGenerator (str "PAY") }

def PaymentTransactionIDGenerator.Generate (g : PaymentTransactionIDGenerator) (now : Time)
    (rand : List Byte × Option GoError) : Except GoError GoString :=
  g.generator.Generate now rand

def ValidateTransactionID (transactionID : GoString) : Run (Option GoError) :=
  if transactionID.length < 25 then
    Run.ret (some (NewValidationError (str "invalid transaction id format")))
  else
    match sliceTo transactionID 3 with
    | Run.panicked msg => Run.panicked msg
    | Run.ret head =>
      if head ≠ str "PAY" then
        Run.ret (some (NewValidationError (str "invalid transaction id prefix")))
      else Run.ret none

/-! ## `internal/domain/model/payment.go` and `internal/gateway/payment.go` -/

/-- Go `type PaymentStatus string`. -/
abbrev PaymentStatus := GoString

def PaymentStatusPending : PaymentStatus := str "pending"
def PaymentStatusProcessing : PaymentStatus := str "processing"
def PaymentStatusCompleted : PaymentStatus := str "completed"
def PaymentStatusFailed : PaymentStatus := str "failed"
def PaymentStatusCanceled : PaymentStatus := str "canceled"

structure PaymentMetadata where
  OrderID : GoString
  ProductID : GoString
  PaymentMethod : GoString
deriving DecidableEq

structure Payment where
  ID : GoString
  Amount : Int
  Currency : GoString
  Status : PaymentStatus
  Description : GoString
  CustomerID : GoString
  CreatedAt : Time
  UpdatedAt : Time
  TransactionID : GoString
  Metadata : PaymentMetadata
deriving DecidableEq

/-- Interface `PaymentRepository` over a world state `σ`: each method is a function of the
state that returns its Go result and the next state.  A method with a `*model.Payment`
parameter receives the payment the pointer refers to and returns, next to its error, that
payment as the call leaves it: an implementation may write any field through the pointer. -/
structure PaymentRepository (σ : Type) where
  Create : Payment → σ → (Payment × Option GoError) × σ
  FindByID : GoString → σ → Except GoError Payment × σ
  Update : Payment → σ → (Payment × Option GoError) × σ
  List : Int → Int → σ → Except GoError (List Payment) × σ

/-- Interface `PaymentProcessor` over a world state `σ`; its methods take a
`*model.Payment` and are modelled as those of `PaymentRepository` are. -/
structure PaymentProcessor (σ : Type) where
  Process : Payment → σ → (Payment × Option GoError) × σ
  Cancel : Payment → σ → (Payment × Option GoError) × σ

/-- Library services the use case reads: `time.Now()`, `rand.Read` on a buffer of the given
length (the buffer after the call and the error), and `uuid.New().String()`. -/
structure Runtime (σ : Type) where
  timeNow : σ → Time × σ
  randRead : Nat → σ → (List Byte × Option GoError) × σ
  uuidNewString : σ → GoString × σ

/-- A call of the use case to one of its collaborators, with its arguments. -/
inductive Call where
  | Generate
  | Create (payment : Payment)
  | FindByID (id : GoString)
  | Update (payment : Payment)
  | List (limit offset : Int)
  | Process (payment : Payment)
  | Cancel (payment : Payment)
deriving DecidableEq

/-- World state together with the record of the collaborator calls made so far. -/
structure World (σ : Type) where
  state : σ
  calls : List Call

/-- Run a collaborator method on the world and record the call. -/
def invoke {σ α : Type} (c : Call) (f : σ → α × σ) (w : World σ) : α × World σ :=
  ((f w.state).1, { state := (f w.state).2, calls := w.calls ++ [c] })

/-- Run a library service on the world. -/
def service {σ α : Type} (f : σ → α × σ) (w : World σ) : α × World σ :=
  ((f w.state).1, { state := (f w.state).2, calls := w.calls })

/-- The call `g.Generate()` against the runtime: `time.Now()` first, then `rand.Read` on
the 8-byte buffer. -/
def PaymentTransactionIDGenerator.run {σ : Type} (g : PaymentTransactionIDGenerator)
    (rt : Runtime σ) (s : σ) : Except GoError GoString × σ :=
  let t := rt.timeNow s
  let r := rt.randRead 8 t.2
  (g.Generate t.1 r.1, r.2)

/-! ## `internal/usecase/payment.go`: the use case -/

structure PaymentUseCase (σ : Type) where
  repo : PaymentRepository σ
  processor : PaymentProcessor σ
  txIDGenerator : PaymentTransactionIDGenerator

def NewPaymentUseCase {σ : Type} (repo : PaymentRepository σ) (processor : PaymentProcessor σ) :
    PaymentUseCase σ :=
  { repo := repo, processor := processor, txIDGenerator := NewPaymentTransactionIDGenerator }

/-- The use case `CreatePayment`.  The variable `payment` of the source is a pointer that
is handed to `Create`, then to `Process`, and then returned: here `Process` receives the
payment as `Create` left it and the caller receives it as `Process` left it. -/
def CreatePayment {σ : Type} (uc : PaymentUseCase σ) (rt : Runtime σ)
    (input : CreatePaymentInput) (w : World σ) : Except GoError Payment × World σ :=
  match validateCreatePaymentInput input with
  | some err => (Except.error err, w)
  | none =>
    match invoke Call.Generate (uc.txIDGenerator.run rt) w with
    | (Except.error err, w1) => (Except.error (NewInternalError (some err)), w1)
    | (Except.ok transactionID, w1) =>
      let (id, w2) := service rt.uuidNewString w1
      let (createdAt, w3) := service rt.timeNow w2
      let (updatedAt, w4) := service rt.timeNow w3
      let payment : Payment :=
        { ID := id
          Amount := input.Amount
          Currency := input.Currency
          Status := PaymentStatusPending
          Description := input.Description
          CustomerID := input.CustomerID
          CreatedAt := createdAt
          UpdatedAt := updatedAt
          TransactionID := transactionID
          Metadata :=
            { OrderID := input.OrderID, ProductID := [], PaymentMethod := input.PaymentMethod } }
      match invoke (Call.Create payment) (uc.repo.Create payment) w4 with
      | ((_, some err), w5) => (Except.error (NewInternalError (some err)), w5)
      | ((payment, none), w5) =>
        match invoke (Call.Process payment) (uc.processor.Process payment) w5 with
        | ((_, some err), w6) => (Except.error (NewInternalError (some err)), w6)
        | ((payment, none), w6) => (Except.ok payment, w6)

def GetPayment {σ : Type} (uc : PaymentUseCase σ) (id : GoString) (w : World σ) :
    Except GoError Payment × World σ :=
  match invoke (Call.FindByID id) (uc.repo.FindByID id) w with
  | (Except.error err, w1) => (Except.error err, w1)
  | (Except.ok payment, w1) => (Except.ok payment, w1)

def ListPayments {σ : Type} (uc : PaymentUseCase σ) (limit offset : Int) (w : World σ) :
    Except GoError (List Payment) × World σ :=
  let limit := if limit ≤ 0 then 10 else limit
  let offset := if offset < 0 then 0 else offset
  match invoke (Call.List limit offset) (uc.repo.List limit offset) w with
  | (Except.error err, w1) => (Except.error err, w1)
  | (Except.ok payments, w1) => (Except.ok payments, w1)

/-! ## `internal/infrastructure/database/postgres/payment_repository.go` over a table -/

/-- Rows of the table `payments`: `id` is the primary key and `transaction_id` is unique.
The column encodings (JSON metadata, timestamp precision) are not modelled. -/
abbrev Store := List Payment

/-- The `INSERT` of `Create`: refused when the primary key or the unique transaction id is
already present, and then wrapped by `fmt.Errorf`; otherwise one row is added. -/
def Store.Create (payment : Payment) (rows : Store) : Option GoError × Store :=
  if rows.any (fun r => decide (r.ID = payment.ID)) then
    (some (GoError.errorf (str "error creating payment; %w")
      (GoError.foreign (str "duplicate key value violates unique constraint"))), rows)
  else if rows.any (fun r => decide (r.TransactionID = payment.TransactionID)) then
    (some (GoError.errorf (str "error creating payment; %w")
      (GoError.foreign (str "duplicate key value violates unique constraint"))), rows)
  else (none, rows ++ [payment])

/-- The `SELECT ... WHERE id = $1` of `FindByID`: no row gives the NotFound error. -/
def Store.FindByID (id : GoString) (rows : Store) : Except GoError Payment × Store :=
  match rows.find? (fun r => decide (r.ID = id)) with
  | none => (Except.error (NewNotFoundError (str "payment not found")), rows)
  | some payment => (Except.ok payment, rows)

/-- The repository over a world made of the table and the rest `τ` of the world.  `Create`
only reads the fields of the payment it is handed, so it leaves it as it was.  `Update` and
`List` are not called by `CreatePayment` and `GetPayment` and are parameters. -/
def storeRepository {τ : Type}
    (update : Payment → Store × τ → (Payment × Option GoError) × (Store × τ))
    (list : Int → Int → Store → Except GoError (List Payment)) :
    PaymentRepository (Store × τ) :=
  { Create := fun payment s =>
      ((payment, (Store.Create payment s.1).1), ((Store.Create payment s.1).2, s.2))
    FindByID := fun id s => ((Store.FindByID id s.1).1, ((Store.FindByID id s.1).2, s.2))
    Update := update
    List := fun limit offset s => (list limit offset s.1, s) }

/-- A processor with its own state `τ`, placed in a world that also holds the table: it has
no handle on the table (`processor.NewPaymentProcessor()` takes none). -/
def PaymentProcessor.beside {τ : Type} (p : PaymentProcessor τ) : PaymentProcessor (Store × τ) :=
  { Process := fun payment s => ((p.Process payment s.2).1, (s.1, (p.Process payment s.2).2))
    Cancel := fun payment s => ((p.Cancel payment s.2).1, (s.1, (p.Cancel payment s.2).2)) }

/-- Library services with their own state `τ`, placed in a world that also holds the table. -/
def Runtime.beside {τ : Type} (rt : Runtime τ) : Runtime (Store × τ) :=
  { timeNow := fun s => ((rt.timeNow s.2).1, (s.1, (rt.timeNow s.2).2))
    randRead := fun n s => ((rt.randRead n s.2).1, (s.1, (rt.randRead n s.2).2))
    uuidNewString := fun s => ((rt.uuidNewString s.2).1, (s.1, (rt.uuidNewString s.2).2)) }

/-- The timestamp as the specification describes it: the fourteen digits
`yyyyMMddHHmmss` of a clock reading with a year in `0 .. 9999`. -/
def timestampDigits (t : Time) : GoString :=
  [ digit (t.Year.toNat / 1000), digit (t.Year.toNat / 100), digit (t.Year.toNat / 10),
    digit t.Year.toNat, digit (t.Month / 10), digit t.Month, digit (t.Day / 10), digit t.Day,
    digit (t.Hour / 10), digit t.Hour, digit (t.Minute / 10), digit t.Minute,
    digit (t.Second / 10), digit t.Second ]

/-- Value of a lowercase hexadecimal digit. -/
def hexValue (c : Byte) : Option Nat :=
  if 48 ≤ c.val ∧ c.val ≤ 57 then some (c.val - 48)
  else if 97 ≤ c.val ∧ c.val ≤ 102 then some (c.val - 87)
  else none

/-- Reading of a lowercase hexadecimal string back into bytes, two digits per byte. -/
def decodeLowerHex : GoString → Option (List Byte)
  | [] => some []
  | [_] => none
  | hi :: lo :: rest =>
    match hexValue hi, hexValue lo, decodeLowerHex rest with
    | some h, some l, some bs => some (Fin.ofNat (16 * h + l) :: bs)
    | _, _, _ => none

/-- Value of a string of decimal digits. -/
def decimalValue (s : GoString) : Nat := s.foldl (fun acc c => 10 * acc + (c.val - 48)) 0

/-- A valid input used by the concrete checks. -/
def sampleInput : CreatePaymentInput :=
  { Amount := 1200, Currency := str "JPY", Description := str "book",
    CustomerID := str "cust-1", PaymentMethod := str "credit_card", OrderID := str "order-7" }

/-- A clock reading used by the concrete checks: 2024-03-09 07:05:59. -/
def sampleTime : Time :=
  { Year := 2024, Month := 3, Day := 9, Hour := 7, Minute := 5, Second := 59,
    month_range := by decide, day_range := by decide, hour_range := by decide,
    minute_range := by decide, second_range := by decide }

/-- Eight bytes used by the concrete checks. -/
def sampleBytes : List Byte := [0, 1, 15, 16, 171, 205, 239, 255]

/-- The payment that `CreatePayment` constructs from the input, the new identifier, the two
clock readings and the generated transaction id. -/
def constructedPayment (input : CreatePaymentInput) (id : GoString) (createdAt updatedAt : Time)
    (transactionID : GoString) : Payment :=
  { ID := id, Amount := input.Amount, Currency := input.Currency,
    Status := PaymentStatusPending, Description := input.Description,
    CustomerID := input.CustomerID, CreatedAt := createdAt, UpdatedAt := updatedAt,
    TransactionID := transactionID,
    Metadata :=
      { OrderID := input.OrderID, ProductID := [], PaymentMethod := input.PaymentMethod } }

/-- Library services of the concrete checks, over a counter: the clock always reads
`sampleTime`, the random source fills the buffer with `sampleBytes`, and the new identifier
is `id-` followed by the counter. -/
def sampleRuntime : Runtime Nat :=
  { timeNow := fun n => (sampleTime, n + 1)
    randRead := fun _ n => ((sampleBytes, none), n + 1)
    uuidNewString := fun n => (str "id-" ++ decimal n, n + 1) }

/-- Library services whose random source fails. -/
def brokenRandRuntime : Runtime Nat :=
  { timeNow := fun n => (sampleTime, n + 1)
    randRead := fun _ n =>
      ((List.replicate 8 0, some (GoError.foreign (str "entropy source unavailable"))), n + 1)
    uuidNewString := fun n => (str "id-" ++ decimal n, n + 1) }

/-- A processor that accepts every payment and leaves it as it was. -/
def acceptingProcessor : PaymentProcessor Nat :=
  { Process := fun payment n => ((payment, none), n + 1)
    Cancel := fun payment n => ((payment, none), n + 1) }

/-- A processor that declines every payment and leaves it as it was. -/
def decliningProcessor : PaymentProcessor Nat :=
  { Process := fun payment n => ((payment, some (GoError.foreign (str "declined"))), n + 1)
    Cancel := fun payment n => ((payment, some (GoError.foreign (str "declined"))), n + 1) }

/-- A processor that accepts every payment and records the outcome in it: `Process` sets
the status to completed and `Cancel` sets it to canceled, through the pointer. -/
def completingProcessor : PaymentProcessor Nat :=
  { Process := fun payment n =>
      (({ payment with Status := PaymentStatusCompleted }, none), n + 1)
    Cancel := fun payment n =>
      (({ payment with Status := PaymentStatusCanceled }, none), n + 1) }

/-- The table repository of the concrete checks. -/
def sampleRepository : PaymentRepository (Store × Nat) :=
  storeRepository (fun payment s => ((payment, none), s)) (fun _ _ rows => Except.ok rows)

/-- A repository whose every call fails: `Create` and `Update` with a NotFound domain
error, `FindByID` and `List` with a driver error. -/
def failingRepository : PaymentRepository (Store × Nat) :=
  { Create := fun payment s => ((payment, some (NewNotFoundError (str "payment not found"))), s)
    FindByID := fun _ s => (Except.error (GoError.foreign (str "connection refused")), s)
    Update := fun payment s => ((payment, some (NewNotFoundError (str "payment not found"))), s)
    List := fun _ _ s => (Except.error (GoError.foreign (str "connection refused")), s) }

/-- The world of the concrete checks: an empty table, counter zero, no call made. -/
def sampleWorld : World (Store × Nat) := { state := ([], 0), calls := [] }

/-- The transaction id generated in the concrete checks. -/
def sampleTransactionID : GoString := str "PAY_20240309070559_00010f10abcdefff"

/-- The payment constructed in the concrete checks. -/
def samplePayment : Payment :=
  constructedPayment sampleInput (str "id-2") sampleTime sampleTime sampleTransactionID

/-! ## `internal/interface/handler/response.go` and `payment_handler.go` -/

def StatusOK : Nat := 200
def StatusBadRequest : Nat := 400
def StatusNotFound : Nat := 404
def StatusInternalServerError : Nat := 500

/-- Go `http.StatusText` on the status codes the handlers write; the empty string on the
others. -/
def StatusText (code : Nat) : GoString :=
  if code = 200 then str "OK"
  else if code = 400 then str "Bad Request"
  else if code = 404 then str "Not Found"
  else if code = 500 then str "Internal Server Error"
  else []

structure ErrorResponse where
  Error : GoString
  Message : GoString
  Code : GoString
deriving DecidableEq

/-- The value a handler encodes as the JSON body. -/
inductive ResponseData where
  | error (response : ErrorResponse)
  | payment (payment : Payment)
  | payments (payments : List Payment)
deriving DecidableEq

/-- What a handler writes to the `http.ResponseWriter`: the status passed to `WriteHeader`
and the encoded value. -/
structure Response where
  status : Nat
  data : ResponseData
deriving DecidableEq

def writeJSON (status : Nat) (data : ResponseData) : Response :=
  { status := status, data := data }

def writeError (status : Nat) (message : GoString) : Response :=
  writeJSON status (ResponseData.error
    { Error := StatusText status, Message := message, Code := str "ERR_" ++ decimal status })

/-- The handler `handleError`, called with a non-nil error: the first match is the type
assertion `err.(*model.Error)`, the inner chain is the `switch` on `domainErr.Type`. -/
def handleError (err : GoError) : Response :=
  match err with
  | GoError.model typ message _ =>
    if typ = ErrorTypeValidation then writeError StatusBadRequest message
    else if typ = ErrorTypeNotFound then writeError StatusNotFound message
    else writeError StatusNotFound message
  | _ => writeError StatusInternalServerError (str "internal server error")

/-- The query of a request URL: its key and value pairs in order. -/
structure Request where
  Query : List (GoString × GoString)
deriving DecidableEq

/-- Go `r.URL.Query().Get(key)`: the first value of the key, the empty string when the key
is absent. -/
def Request.QueryGet (r : Request) (key : GoString) : GoString :=
  match r.Query.find? (fun kv => decide (kv.1 = key)) with
  | some kv => kv.2
  | none => []

/-- Value of a non-empty string of decimal digits; `none` on any other string. -/
def parseDecimal (s : GoString) : Option Nat :=
  if s ≠ [] ∧ s.all (fun c => decide (48 ≤ c.val ∧ c.val ≤ 57)) = true then some (decimalValue s)
  else none

/-- Go `strconv.Atoi` with a 64-bit `int`: an optional sign `+` or `-`, then one or more
decimal digits; a syntax error on any other string and a range error when the value is
outside `-2^63 .. 2^63 - 1`. -/
def Atoi (s : GoString) : Except GoError Int :=
  let body := if s.head? = some 45 ∨ s.head? = some 43 then s.tail else s
  match parseDecimal body with
  | none => Except.error (GoError.foreign (str "strconv.Atoi: invalid syntax"))
  | some n =>
    let v : Int := if s.head? = some 45 then -(n : Int) else (n : Int)
    if v < -9223372036854775808 ∨ 9223372036854775807 < v then
      Except.error (GoError.foreign (str "strconv.Atoi: value out of range"))
    else Except.ok v

structure PaymentHandler (σ : Type) where
  paymentUseCase : PaymentUseCase σ

def NewPaymentHandler {σ : Type} (pu : PaymentUseCase σ) : PaymentHandler σ :=
  { paymentUseCase := pu }

def PaymentHandler.ListPayments {σ : Type} (h : PaymentHandler σ) (r : Request) (w : World σ) :
    Response × World σ :=
  let limit : Int := 10
  let offset : Int := 0
  let limitStr := r.QueryGet (str "limit")
  let limit : Int :=
    if limitStr ≠ [] then
      match Atoi limitStr with
      | Except.ok l => if l > 0 then 1 else limit
      | Except.error _ => limit
    else limit
  let offsetStr := r.QueryGet (str "offset")
  let offset : Int :=
    if offsetStr ≠ [] then
      match Atoi offsetStr with
      | Except.ok o => if o ≥ 0 then o else offset
      | Except.error _ => offset
    else offset
  match GoApi.ListPayments h.paymentUseCase limit offset w with
  | (Except.error err, w1) => (handleError err, w1)
  | (Except.ok payments, w1) => (writeJSON StatusOK (ResponseData.payments payments), w1)

/-- The list request of the concrete checks: `?limit=25&offset=3`. -/
def sampleListRequest : Request :=
  { Query := [(str "limit", str "25"), (str "offset", str "3")] }

/-- An input valid in every tested field whose description has 501 bytes and whose
customer id has 101 bytes, all of them ASCII letters. -/
def longInput : CreatePaymentInput :=
  { sampleInput with
    Description := List.replicate 501 120, CustomerID := List.replicate 101 99 }

/-- The payment constructed from `longInput` in the concrete checks. -/
def longPayment : Payment :=
  constructedPayment longInput (str "id-2") sampleTime sampleTime sampleTransactionID

/-! ## Theorems -/

/-! ### Concrete checks of the embedding -/

theorem str_PAY_bytes : str "PAY" = [80, 65, 89] := by decide

theorem sampleTime_format : sampleTime.Format20060102150405 = str "20240309070559" := by
  decide

theorem sampleBytes_hex : EncodeToString sampleBytes = str "00010f10abcdefff" := by decide

theorem sampleBytes_hex_decodes :
    decodeLowerHex (EncodeToString sampleBytes) = some sampleBytes := by decide

theorem sample_generate :
    NewPaymentTransactionIDGenerator.Generate sampleTime (sampleBytes, none)
      = Except.ok sampleTransactionID := rfl

theorem sample_validate : ValidateTransactionID sampleTransactionID = Run.ret none := rfl

theorem appendInt_negative_year : appendInt (-5) 4 = str "-0005" := by decide

theorem appendInt_five_digit_year : appendInt 12345 4 = str "12345" := by decide

theorem sliceTo_short : sliceTo (str "PA") 3 = Run.panicked "slice bounds out of range" := by
  decide

/-! ### Input validation -/


theorem validCurrencies_eq_true (c : GoString) :
    validCurrencies c = true ↔ (c = str "USD" ∨ c = str "JPY") := by
  unfold validCurrencies CurrencyJPY CurrencyUSD
  by_cases h1 : c = str "JPY"
  · simp [h1]
  · by_cases h2 : c = str "USD"
    · simp [h2]
    · simp [h1, h2]

theorem validMethods_eq_true (m : GoString) :
    validMethods m = true ↔
      (m = str "credit_card" ∨ m = str "bank_transfer" ∨ m = str "convenience_store") := by
  unfold validMethods
  by_cases h1 : m = str "credit_card"
  · simp [h1]
  · by_cases h2 : m = str "bank_transfer"
    · simp [h2]
    · by_cases h3 : m = str "convenience_store"
      · simp [h3]
      · simp [h1, h2, h3]

theorem validateCreatePaymentInput_eq_firstViolation (input : CreatePaymentInput) :
    validateCreatePaymentInput input = firstViolation input := by
  unfold validateCreatePaymentInput firstViolation validationRules validatePaymentMethod MaxAmount
  by_cases h1 : input.Amount ≤ 0
  · simp [h1, List.find?]
  by_cases h2 : input.Currency = []
  · simp [h1, h2, List.find?]
  by_cases h3 : input.CustomerID = []
  · simp [h1, h2, h3, List.find?]
  by_cases h4 : input.Amount > 10000000
  · simp [h1, h2, h3, h4, List.find?]
  by_cases h5 : validCurrencies input.Currency = true
  · have h5' := (validCurrencies_eq_true _).1 h5
    by_cases h6 : input.PaymentMethod = []
    · simp [h1, h2, h3, h4, h5, h5', h6, List.find?]
    by_cases h7 : validMethods input.PaymentMethod = true
    · have h7' := (validMethods_eq_true _).1 h7
      simp [h1, h2, h3, h4, h5, h5', h6, h7, h7', List.find?]
    · have h7' := fun h => h7 ((validMethods_eq_true _).2 h)
      obtain ⟨a, b, c⟩ : input.PaymentMethod ≠ str "credit_card"
          ∧ input.PaymentMethod ≠ str "bank_transfer"
          ∧ input.PaymentMethod ≠ str "convenience_store" :=
        ⟨fun h => h7' (Or.inl h), fun h => h7' (Or.inr (Or.inl h)),
          fun h => h7' (Or.inr (Or.inr h))⟩
      simp [h1, h2, h3, h4, h5, h5', h6, h7, a, b, c, List.find?]
  · have h5' := fun h => h5 ((validCurrencies_eq_true _).2 h)
    obtain ⟨a, b⟩ : input.Currency ≠ str "USD" ∧ input.Currency ≠ str "JPY" :=
      ⟨fun h => h5' (Or.inl h), fun h => h5' (Or.inr h)⟩
    simp [h1, h2, h3, h4, h5, a, b, List.find?]

theorem validateCreatePaymentInput_eq_none_iff (input : CreatePaymentInput) :
    validateCreatePaymentInput input = none ↔ ValidInput input := by
  rw [validateCreatePaymentInput_eq_firstViolation]
  unfold firstViolation validationRules ValidInput
  constructor
  · intro h
    simp only [Option.map_eq_none', List.find?_eq_none, List.mem_cons, List.mem_singleton,
      List.not_mem_nil, or_false] at h
    have r1 := h _ (Or.inl rfl)
    have r2 := h _ (Or.inr (Or.inl rfl))
    have r3 := h _ (Or.inr (Or.inr (Or.inl rfl)))
    have r4 := h _ (Or.inr (Or.inr (Or.inr (Or.inl rfl))))
    have r5 := h _ (Or.inr (Or.inr (Or.inr (Or.inr (Or.inl rfl)))))
    have r7 := h _ (Or.inr (Or.inr (Or.inr (Or.inr (Or.inr (Or.inr rfl))))))
    simp only [decide_eq_true_eq, not_not] at r1 r3 r4 r5 r7
    refine ⟨by omega, by omega, r5, r3, r7⟩
  · rintro ⟨a1, a2, a3, a4, a5⟩
    have c0 : input.Currency ≠ [] := by
      rcases a3 with h | h <;> rw [h] <;> decide
    have m0 : input.PaymentMethod ≠ [] := by
      rcases a5 with h | h | h <;> rw [h] <;> decide
    have n1 : ¬ input.Amount ≤ 0 := by omega
    have n4 : ¬ input.Amount > 10000000 := by omega
    simp [List.find?, n1, n4, c0, m0, a3, a4, a5]

theorem validateCreatePaymentInput_validation_type (input : CreatePaymentInput) (e : GoError)
    (h : validateCreatePaymentInput input = some e) :
    ∃ msg, e = NewValidationError msg := by
  rw [validateCreatePaymentInput_eq_firstViolation] at h
  unfold firstViolation at h
  rcases Option.map_eq_some'.1 h with ⟨r, _, hr⟩
  exact ⟨r.2, hr.symm⟩

/-- C1: `validateCreatePaymentInput` returns the validation error of the first violated rule
of the ordered rule list (amount positive, currency present, customer id present, amount at
most 10,000,000, currency supported, payment method present, payment method supported); every
error it returns is of type validation; it returns nil exactly on the valid inputs; and with
the other fields valid, amount 10,000,000 is accepted and 10,000,001 is rejected with
'amount exceeds maximum allowed'. -/
theorem c1_validate_returns_first_violated_rule (input : CreatePaymentInput) :
    validateCreatePaymentInput input = firstViolation input
    ∧ (∀ e, validateCreatePaymentInput input = some e →
        e.domainType = some ErrorTypeValidation)
    ∧ (validateCreatePaymentInput input = none ↔ ValidInput input)
    ∧ (ValidInput input →
        validateCreatePaymentInput { input with Amount := 10000000 } = none
        ∧ validateCreatePaymentInput { input with Amount := 10000001 }
            = some (NewValidationError (str "amount exceeds maximum allowed"))) := by
  refine ⟨validateCreatePaymentInput_eq_firstViolation input, ?_,
    validateCreatePaymentInput_eq_none_iff input, ?_⟩
  · intro e he
    obtain ⟨msg, rfl⟩ := validateCreatePaymentInput_validation_type input e he
    rfl
  · rintro ⟨a1, a2, a3, a4, a5⟩
    constructor
    · exact (validateCreatePaymentInput_eq_none_iff _).2 ⟨by simp, by simp, a3, a4, a5⟩
    · have c0 : input.Currency ≠ [] := by
        rcases a3 with h | h <;> rw [h] <;> decide
      rw [validateCreatePaymentInput_eq_firstViolation]
      simp [firstViolation, validationRules, List.find?, c0, a4]

theorem sampleInput_valid : ValidInput sampleInput := by
  unfold ValidInput sampleInput
  refine ⟨by decide, by decide, Or.inr rfl, by decide, Or.inl rfl⟩

/-- Witness of C1 at the sample input: it is valid, hence accepted at the upper bound and
rejected one above it. -/
theorem c1_validate_witness :
    ValidInput sampleInput
    ∧ validateCreatePaymentInput { sampleInput with Amount := 10000000 } = none
    ∧ validateCreatePaymentInput { sampleInput with Amount := 10000001 }
        = some (NewValidationError (str "amount exceeds maximum allowed")) :=
  ⟨sampleInput_valid,
    (c1_validate_returns_first_violated_rule sampleInput).2.2.2 sampleInput_valid⟩

/-! ### Transaction identifiers -/

theorem decimalAux_succ (fuel u : Nat) :
    decimalAux (fuel + 1) u
      = if u < 10 then [digit u] else decimalAux fuel (u / 10) ++ [digit (u % 10)] := rfl

theorem decimalAux_fuel (u : Nat) : ∀ fuel, u < fuel → decimalAux fuel u = decimalAux (u + 1) u := by
  induction u using Nat.strong_induction_on with
  | _ u ih =>
    intro fuel hf
    obtain ⟨f, rfl⟩ : ∃ f, fuel = f + 1 := ⟨fuel - 1, by omega⟩
    by_cases h : u < 10
    · simp [decimalAux, h]
    · have hlt : u / 10 < u := by omega
      simp only [decimalAux, h, if_false]
      rw [ih (u / 10) hlt f (by omega), ih (u / 10) hlt u hlt]

theorem decimal_eq (u : Nat) :
    decimal u = if u < 10 then [digit u] else decimal (u / 10) ++ [digit (u % 10)] := by
  by_cases h : u < 10
  · simp [decimal, decimalAux, h]
  · rw [if_neg h]
    show decimalAux (u + 1) u = decimalAux (u / 10 + 1) (u / 10) ++ [digit (u % 10)]
    rw [decimalAux_succ u u, if_neg h, decimalAux_fuel (u / 10) u (by omega)]

theorem digit_mod (u : Nat) : digit (u % 10) = digit u := by
  unfold digit
  rw [Nat.mod_mod]

theorem digit_val (u : Nat) : (digit u).val = 48 + u % 10 := by
  unfold digit
  have h : 48 + u % 10 < 256 := by omega
  simp [Fin.ofNat, Nat.mod_eq_of_lt h]

theorem decimalValue_append (s : GoString) (c : Byte) :
    decimalValue (s ++ [c]) = 10 * decimalValue s + (c.val - 48) := by
  simp [decimalValue, List.foldl_append]

/-- The decimal form reads back as the number: no digit is lost. -/
theorem decimalValue_decimal (u : Nat) : decimalValue (decimal u) = u := by
  induction u using Nat.strong_induction_on with
  | _ u ih =>
    rw [decimal_eq]
    by_cases h : u < 10
    · simp only [h, if_true, decimalValue, List.foldl, digit_val]
      omega
    · simp only [h, if_false, decimalValue_append, digit_val, ih (u / 10) (by omega)]
      omega

theorem decimal_one_digit (u : Nat) (h : u < 10) : decimal u = [digit u] := by
  rw [decimal_eq, if_pos h]

theorem decimal_two_digits (u : Nat) (h1 : 10 ≤ u) (h2 : u < 100) :
    decimal u = [digit (u / 10), digit u] := by
  rw [decimal_eq, if_neg (by omega), decimal_one_digit (u / 10) (by omega), digit_mod]
  rfl

theorem decimal_three_digits (u : Nat) (h1 : 100 ≤ u) (h2 : u < 1000) :
    decimal u = [digit (u / 100), digit (u / 10), digit u] := by
  rw [decimal_eq, if_neg (by omega), decimal_two_digits (u / 10) (by omega) (by omega),
    digit_mod, Nat.div_div_eq_div_mul]
  rfl

theorem decimal_four_digits (u : Nat) (h1 : 1000 ≤ u) (h2 : u < 10000) :
    decimal u = [digit (u / 1000), digit (u / 100), digit (u / 10), digit u] := by
  rw [decimal_eq, if_neg (by omega), decimal_three_digits (u / 10) (by omega) (by omega),
    digit_mod, Nat.div_div_eq_div_mul, Nat.div_div_eq_div_mul]
  rfl

theorem appendInt_width2 (n : Nat) (h : n < 100) :
    appendInt (n : Int) 2 = [digit (n / 10), digit n] := by
  unfold appendInt
  have hneg : ¬ ((n : Int) < 0) := by omega
  simp only [hneg, if_false, Int.natAbs_ofNat, List.nil_append]
  by_cases h1 : n < 10
  · rw [decimal_one_digit n h1]
    have : n / 10 = 0 := by omega
    simp [this, List.replicate]
  · rw [decimal_two_digits n (by omega) h]
    simp [List.replicate]

theorem appendInt_width4 (y : Int) (h0 : 0 ≤ y) (h1 : y ≤ 9999) :
    appendInt y 4
      = [digit (y.toNat / 1000), digit (y.toNat / 100), digit (y.toNat / 10), digit y.toNat] := by
  obtain ⟨n, rfl⟩ := Int.eq_ofNat_of_zero_le h0
  unfold appendInt
  have hneg : ¬ ((n : Int) < 0) := by omega
  have hn : n < 10000 := by omega
  simp only [hneg, if_false, Int.natAbs_ofNat, List.nil_append, Int.toNat_ofNat]
  by_cases c1 : n < 10
  · rw [decimal_one_digit n c1]
    have e1 : n / 1000 = 0 := by omega
    have e2 : n / 100 = 0 := by omega
    have e3 : n / 10 = 0 := by omega
    simp [e1, e2, e3, List.replicate]
  by_cases c2 : n < 100
  · rw [decimal_two_digits n (by omega) c2]
    have e1 : n / 1000 = 0 := by omega
    have e2 : n / 100 = 0 := by omega
    simp [e1, e2, List.replicate]
  by_cases c3 : n < 1000
  · rw [decimal_three_digits n (by omega) c3]
    have e1 : n / 1000 = 0 := by omega
    simp [e1, List.replicate]
  · rw [decimal_four_digits n (by omega) hn]
    simp [List.replicate]

theorem Format_eq_timestampDigits (t : Time) (h0 : 0 ≤ t.Year) (h1 : t.Year ≤ 9999) :
    t.Format20060102150405 = timestampDigits t := by
  unfold Time.Format20060102150405 timestampDigits
  have hm := t.month_range
  have hd := t.day_range
  have hh := t.hour_range
  have hmi := t.minute_range
  have hs := t.second_range
  rw [appendInt_width4 t.Year h0 h1, appendInt_width2 t.Month (by omega),
    appendInt_width2 t.Day (by omega), appendInt_width2 t.Hour (by omega),
    appendInt_width2 t.Minute (by omega), appendInt_width2 t.Second (by omega)]
  rfl

theorem appendInt_length_ge (x : Int) (width : Nat) : width ≤ (appendInt x width).length := by
  unfold appendInt
  simp only [List.length_append, List.length_replicate]
  omega

theorem Format_length_ge (t : Time) : 14 ≤ t.Format20060102150405.length := by
  unfold Time.Format20060102150405
  have a := appendInt_length_ge t.Year 4
  have b := appendInt_length_ge t.Month 2
  have c := appendInt_length_ge t.Day 2
  have d := appendInt_length_ge t.Hour 2
  have e := appendInt_length_ge t.Minute 2
  have f := appendInt_length_ge t.Second 2
  simp only [List.length_append]
  omega

theorem EncodeToString_length (src : List Byte) :
    (EncodeToString src).length = 2 * src.length := by
  induction src with
  | nil => rfl
  | cons v rest ih =>
    simp only [EncodeToString, List.length_cons, ih]
    omega

theorem hexValue_hextable : ∀ d : Fin 16, hexValue (hextable.getD d.val 0) = some d.val := by
  decide

theorem hextable_mem : ∀ d : Fin 16, hextable.getD d.val 0 ∈ hextable := by
  decide

theorem EncodeToString_mem (src : List Byte) : ∀ c ∈ EncodeToString src, c ∈ hextable := by
  induction src with
  | nil => intro c hc; simp [EncodeToString] at hc
  | cons v rest ih =>
    intro c hc
    simp only [EncodeToString, List.mem_cons] at hc
    rcases hc with h | h | h
    · rw [h]
      exact hextable_mem ⟨v.val / 16, by omega⟩
    · rw [h]
      exact hextable_mem ⟨v.val % 16, by omega⟩
    · exact ih c h

theorem decodeLowerHex_EncodeToString (src : List Byte) :
    decodeLowerHex (EncodeToString src) = some src := by
  induction src with
  | nil => rfl
  | cons v rest ih =>
    have h1 := hexValue_hextable ⟨v.val / 16, by omega⟩
    have h2 := hexValue_hextable ⟨v.val % 16, by omega⟩
    simp only at h1 h2
    simp only [EncodeToString, decodeLowerHex, h1, h2, ih]
    have hv : 16 * (v.val / 16) + v.val % 16 = v.val := by omega
    rw [hv]
    simp [Fin.ofNat, Nat.mod_eq_of_lt v.isLt]

theorem ValidateTransactionID_eq (s : GoString) :
    ValidateTransactionID s =
      if s.length < 25 then
        Run.ret (some (NewValidationError (str "invalid transaction id format")))
      else if s.take 3 ≠ str "PAY" then
        Run.ret (some (NewValidationError (str "invalid transaction id prefix")))
      else Run.ret none := by
  unfold ValidateTransactionID sliceTo
  by_cases h : s.length < 25
  · simp [h]
  · have h3 : 3 ≤ s.length := by omega
    simp [h, h3]

/-- C6: `ValidateTransactionID` never panics (the prefix slice is taken only after the
length check; the empty string is rejected by the length check); it returns an error of type
validation exactly when the length is below 25 or the first three bytes are not `PAY`, and
nil otherwise. -/
theorem c6_validateTransactionID_characterisation (s : GoString) :
    (∃ r, ValidateTransactionID s = Run.ret r)
    ∧ ((∃ e, ValidateTransactionID s = Run.ret (some e)
          ∧ e.domainType = some ErrorTypeValidation)
        ↔ (s.length < 25 ∨ s.take 3 ≠ str "PAY"))
    ∧ (ValidateTransactionID s = Run.ret none ↔ ¬ (s.length < 25 ∨ s.take 3 ≠ str "PAY"))
    ∧ ValidateTransactionID []
        = Run.ret (some (NewValidationError (str "invalid transaction id format"))) := by
  rw [ValidateTransactionID_eq]
  refine ⟨?_, ?_, ?_, rfl⟩
  · by_cases h : s.length < 25
    · exact ⟨_, by rw [if_pos h]⟩
    · by_cases h2 : s.take 3 ≠ str "PAY"
      · exact ⟨_, by rw [if_neg h, if_pos h2]⟩
      · exact ⟨_, by rw [if_neg h, if_neg h2]⟩
  · by_cases h : s.length < 25
    · rw [if_pos h]
      exact ⟨fun _ => Or.inl h, fun _ => ⟨_, rfl, rfl⟩⟩
    · by_cases h2 : s.take 3 ≠ str "PAY"
      · rw [if_neg h, if_pos h2]
        exact ⟨fun _ => Or.inr h2, fun _ => ⟨_, rfl, rfl⟩⟩
      · rw [if_neg h, if_neg h2]
        constructor
        · rintro ⟨e, he, _⟩
          cases he
        · rintro (h' | h')
          · exact absurd h' h
          · exact absurd h' h2
  · by_cases h : s.length < 25
    · rw [if_pos h]
      constructor
      · intro he
        cases he
      · intro hn
        exact absurd (Or.inl h) hn
    · by_cases h2 : s.take 3 ≠ str "PAY"
      · rw [if_neg h, if_pos h2]
        constructor
        · intro he
          cases he
        · intro hn
          exact absurd (Or.inr h2) hn
      · rw [if_neg h, if_neg h2]
        constructor
        · rintro _ (h' | h')
          · exact h h'
          · exact h2 h'
        · intro _
          rfl

theorem Generate_ok (g : DefaultTransactionIDGenerator) (now : Time) (b : List Byte) :
    g.Generate now (b, none)
      = Except.ok (g.pfx ++ str "_" ++ now.Format20060102150405 ++ str "_" ++ EncodeToString b) :=
  rfl

theorem generated_id_valid (now : Time) (b : List Byte) (hb : b.length = 8) :
    ValidateTransactionID
      (str "PAY" ++ str "_" ++ now.Format20060102150405 ++ str "_" ++ EncodeToString b)
      = Run.ret none := by
  rw [ValidateTransactionID_eq]
  have hl := Format_length_ge now
  have he := EncodeToString_length b
  have h1 : ¬ (str "PAY" ++ str "_" ++ now.Format20060102150405 ++ str "_"
      ++ EncodeToString b).length < 25 := by
    simp only [List.length_append, he, hb]
    omega
  have h2 : ¬ ((str "PAY" ++ str "_" ++ now.Format20060102150405 ++ str "_"
      ++ EncodeToString b).take 3 ≠ str "PAY") := by
    have h3 : (str "PAY").length = 3 := by decide
    rw [List.append_assoc, List.append_assoc, List.append_assoc, ← h3, List.take_left]
    simp
  rw [if_neg h1, if_neg h2]

/-- C7: round trip.  For every clock reading and every eight random bytes read without
error, the payment generator (prefix `PAY`) returns an id, and `ValidateTransactionID`
returns nil on it. -/
theorem c7_generated_id_passes_validation (now : Time) (b : List Byte) (hb : b.length = 8) :
    ∃ id, NewPaymentTransactionIDGenerator.Generate now (b, none) = Except.ok id
      ∧ ValidateTransactionID id = Run.ret none :=
  ⟨_, Generate_ok _ now b, generated_id_valid now b hb⟩

/-- Witness of C7 at the sample clock reading and the sample bytes. -/
theorem c7_generated_id_witness :
    sampleBytes.length = 8
    ∧ ∃ id, NewPaymentTransactionIDGenerator.Generate sampleTime (sampleBytes, none)
          = Except.ok id
        ∧ ValidateTransactionID id = Run.ret none :=
  ⟨by decide, c7_generated_id_passes_validation sampleTime sampleBytes (by decide)⟩

theorem timestampDigits_digits (t : Time) :
    ∀ c ∈ timestampDigits t, 48 ≤ c.val ∧ c.val ≤ 57 := by
  intro c hc
  simp only [timestampDigits, List.mem_cons, List.mem_singleton, List.not_mem_nil,
    or_false] at hc
  rcases hc with h | h | h | h | h | h | h | h | h | h | h | h | h | h <;>
    (rw [h, digit_val]; omega)

/-- C8: for every prefix `p`, every clock reading with a year in `0 .. 9999` and every
eight bytes `b` read without error, `Generate` returns exactly `p`, `_`, the fourteen decimal
digits `yyyyMMddHHmmss`, `_` and the sixteen lowercase hexadecimal characters that encode `b`
(they decode back to `b`); the length is `len(p) + 32`, at least 25, and 35 for the payment
generator; and for every outcome of the random read `Generate` returns an error exactly when
the read returned one. -/
theorem c8_generate_format (p : GoString) (now : Time) (b : List Byte)
    (hy : 0 ≤ now.Year ∧ now.Year ≤ 9999) (hb : b.length = 8) :
    (NewTransactionIDGenerator p).Generate now (b, none)
        = Except.ok (p ++ str "_" ++ timestampDigits now ++ str "_" ++ EncodeToString b)
    ∧ (timestampDigits now).length = 14
    ∧ (∀ c ∈ timestampDigits now, 48 ≤ c.val ∧ c.val ≤ 57)
    ∧ (EncodeToString b).length = 16
    ∧ (∀ c ∈ EncodeToString b, c ∈ str "0123456789abcdef")
    ∧ decodeLowerHex (EncodeToString b) = some b
    ∧ (p ++ str "_" ++ timestampDigits now ++ str "_" ++ EncodeToString b).length
        = p.length + 32
    ∧ 25 ≤ p.length + 32
    ∧ (∃ id, NewPaymentTransactionIDGenerator.Generate now (b, none) = Except.ok id
        ∧ id.length = 35)
    ∧ (∀ rand : List Byte × Option GoError,
        (∃ e, (NewTransactionIDGenerator p).Generate now rand = Except.error e)
          ↔ rand.2 ≠ none) := by
  have hf := Format_eq_timestampDigits now hy.1 hy.2
  have he : (EncodeToString b).length = 16 := by rw [EncodeToString_length, hb]
  have hlen : ∀ q : GoString,
      (q ++ str "_" ++ timestampDigits now ++ str "_" ++ EncodeToString b).length
        = q.length + 32 := by
    intro q
    have h1 : (str "_").length = 1 := by decide
    simp only [List.length_append, he, h1]
    simp only [timestampDigits, List.length_cons, List.length_nil]
  refine ⟨?_, rfl, timestampDigits_digits now, he, EncodeToString_mem b,
    decodeLowerHex_EncodeToString b, hlen p, by omega, ?_, ?_⟩
  · rw [Generate_ok, hf]
    rfl
  · refine ⟨_, Generate_ok _ now b, ?_⟩
    rw [hf]
    exact hlen (str "PAY")
  · rintro ⟨bs, err⟩
    cases err with
    | none =>
      constructor
      · rintro ⟨e, he'⟩
        cases he'
      · intro h
        exact absurd rfl h
    | some e0 =>
      constructor
      · intro _ h
        cases h
      · intro _
        exact ⟨_, rfl⟩

/-- Witness of C8 at the prefix `PAY`, the sample clock reading and the sample bytes. -/
theorem c8_generate_format_witness :
    (0 ≤ sampleTime.Year ∧ sampleTime.Year ≤ 9999) ∧ sampleBytes.length = 8
    ∧ (NewTransactionIDGenerator (str "PAY")).Generate sampleTime (sampleBytes, none)
        = Except.ok (str "PAY" ++ str "_" ++ timestampDigits sampleTime ++ str "_"
            ++ EncodeToString sampleBytes) :=
  ⟨by decide, by decide,
    (c8_generate_format (str "PAY") sampleTime sampleBytes (by decide) (by decide)).1⟩

/-! ### The use case -/

theorem CreatePayment_rejected {σ : Type} (uc : PaymentUseCase σ) (rt : Runtime σ)
    (input : CreatePaymentInput) (w : World σ) (e : GoError)
    (h : validateCreatePaymentInput input = some e) :
    CreatePayment uc rt input w = (Except.error e, w) := by
  simp [CreatePayment, h]

theorem CreatePayment_generate_error {σ : Type} (uc : PaymentUseCase σ) (rt : Runtime σ)
    (input : CreatePaymentInput) (w : World σ) (now : Time) (s1 s2 : σ)
    (rand : List Byte × Option GoError) (ge : GoError)
    (hv : validateCreatePaymentInput input = none)
    (hnow : rt.timeNow w.state = (now, s1)) (hrand : rt.randRead 8 s1 = (rand, s2))
    (hgen : uc.txIDGenerator.Generate now rand = Except.error ge) :
    CreatePayment uc rt input w
      = (Except.error (NewInternalError (some ge)),
          { state := s2, calls := w.calls ++ [Call.Generate] }) := by
  simp [CreatePayment, hv, invoke, PaymentTransactionIDGenerator.run, hnow, hrand, hgen]

theorem CreatePayment_create_error {σ : Type} (uc : PaymentUseCase σ) (rt : Runtime σ)
    (input : CreatePaymentInput) (w : World σ) (now createdAt updatedAt : Time)
    (s1 s2 s3 s4 s5 s6 : σ) (rand : List Byte × Option GoError) (tid id : GoString)
    (p1 : Payment) (e : GoError)
    (hv : validateCreatePaymentInput input = none)
    (hnow : rt.timeNow w.state = (now, s1)) (hrand : rt.randRead 8 s1 = (rand, s2))
    (hgen : uc.txIDGenerator.Generate now rand = Except.ok tid)
    (huuid : rt.uuidNewString s2 = (id, s3))
    (hc : rt.timeNow s3 = (createdAt, s4)) (hu : rt.timeNow s4 = (updatedAt, s5))
    (hcreate : uc.repo.Create (constructedPayment input id createdAt updatedAt tid) s5
      = ((p1, some e), s6)) :
    CreatePayment uc rt input w
      = (Except.error (NewInternalError (some e)),
          { state := s6
            calls := w.calls ++ [Call.Generate,
              Call.Create (constructedPayment input id createdAt updatedAt tid)] }) := by
  unfold constructedPayment at hcreate
  simp [CreatePayment, hv, invoke, service, PaymentTransactionIDGenerator.run, hnow, hrand,
    hgen, huuid, hc, hu, hcreate, constructedPayment]

theorem CreatePayment_process_error {σ : Type} (uc : PaymentUseCase σ) (rt : Runtime σ)
    (input : CreatePaymentInput) (w : World σ) (now createdAt updatedAt : Time)
    (s1 s2 s3 s4 s5 s6 s7 : σ) (rand : List Byte × Option GoError) (tid id : GoString)
    (p1 p2 : Payment) (e : GoError)
    (hv : validateCreatePaymentInput input = none)
    (hnow : rt.timeNow w.state = (now, s1)) (hrand : rt.randRead 8 s1 = (rand, s2))
    (hgen : uc.txIDGenerator.Generate now rand = Except.ok tid)
    (huuid : rt.uuidNewString s2 = (id, s3))
    (hc : rt.timeNow s3 = (createdAt, s4)) (hu : rt.timeNow s4 = (updatedAt, s5))
    (hcreate : uc.repo.Create (constructedPayment input id createdAt updatedAt tid) s5
      = ((p1, none), s6))
    (hprocess : uc.processor.Process p1 s6 = ((p2, some e), s7)) :
    CreatePayment uc rt input w
      = (Except.error (NewInternalError (some e)),
          { state := s7
            calls := w.calls ++ [Call.Generate,
              Call.Create (constructedPayment input id createdAt updatedAt tid),
              Call.Process p1] }) := by
  unfold constructedPayment at hcreate
  simp [CreatePayment, hv, invoke, service, PaymentTransactionIDGenerator.run, hnow, hrand,
    hgen, huuid, hc, hu, hcreate, hprocess, constructedPayment]

theorem CreatePayment_ok {σ : Type} (uc : PaymentUseCase σ) (rt : Runtime σ)
    (input : CreatePaymentInput) (w : World σ) (now createdAt updatedAt : Time)
    (s1 s2 s3 s4 s5 s6 s7 : σ) (rand : List Byte × Option GoError) (tid id : GoString)
    (p1 p2 : Payment)
    (hv : validateCreatePaymentInput input = none)
    (hnow : rt.timeNow w.state = (now, s1)) (hrand : rt.randRead 8 s1 = (rand, s2))
    (hgen : uc.txIDGenerator.Generate now rand = Except.ok tid)
    (huuid : rt.uuidNewString s2 = (id, s3))
    (hc : rt.timeNow s3 = (createdAt, s4)) (hu : rt.timeNow s4 = (updatedAt, s5))
    (hcreate : uc.repo.Create (constructedPayment input id createdAt updatedAt tid) s5
      = ((p1, none), s6))
    (hprocess : uc.processor.Process p1 s6 = ((p2, none), s7)) :
    CreatePayment uc rt input w
      = (Except.ok p2,
          { state := s7
            calls := w.calls ++ [Call.Generate,
              Call.Create (constructedPayment input id createdAt updatedAt tid),
              Call.Process p1] }) := by
  unfold constructedPayment at hcreate
  simp [CreatePayment, hv, invoke, service, PaymentTransactionIDGenerator.run, hnow, hrand,
    hgen, huuid, hc, hu, hcreate, hprocess, constructedPayment]

/-- C2: when the validator rejects the input, `CreatePayment` returns no payment and exactly
the validator's error, which is of type validation, and the world is returned as it was: its
state is untouched and no call is added to the record of collaborator calls, so the
generator, `Create` and `Process` are not called.  Every amount `<= 0` is such an input. -/
theorem c2_rejected_input_returns_validation_error {σ : Type} (uc : PaymentUseCase σ)
    (rt : Runtime σ) (input : CreatePaymentInput) (w : World σ) :
    (∀ e, validateCreatePaymentInput input = some e →
      CreatePayment uc rt input w = (Except.error e, w)
      ∧ (CreatePayment uc rt input w).2.calls = w.calls
      ∧ e.domainType = some ErrorTypeValidation)
    ∧ (input.Amount ≤ 0 →
      CreatePayment uc rt input w
        = (Except.error (NewValidationError (str "amount must be positive")), w)) := by
  constructor
  · intro e he
    have h := CreatePayment_rejected uc rt input w e he
    refine ⟨h, by rw [h], ?_⟩
    obtain ⟨msg, rfl⟩ := validateCreatePaymentInput_validation_type input e he
    rfl
  · intro h
    apply CreatePayment_rejected
    simp [validateCreatePaymentInput, h]

/-- Witness of C2: amount zero against the table repository and the accepting processor. -/
theorem c2_rejected_input_witness :
    ({ sampleInput with Amount := 0 } : CreatePaymentInput).Amount ≤ 0
    ∧ CreatePayment (NewPaymentUseCase sampleRepository acceptingProcessor.beside)
        sampleRuntime.beside { sampleInput with Amount := 0 } sampleWorld
        = (Except.error (NewValidationError (str "amount must be positive")), sampleWorld) :=
  ⟨by decide,
    (c2_rejected_input_returns_validation_error
      (NewPaymentUseCase sampleRepository acceptingProcessor.beside) sampleRuntime.beside
      { sampleInput with Amount := 0 } sampleWorld).2 (by decide)⟩

/-- C3, as stated, fails on the code: the payment is handed to `Process` by pointer and that
same pointer is returned.  With the sample input, which is valid, the generator, `Create` of
the table repository and `Process` of the completing processor all succeed, and the payment
`CreatePayment` returns has the status completed that `Process` wrote, not pending. -/
theorem c3_counterexample :
    ValidInput sampleInput
    ∧ NewPaymentTransactionIDGenerator.Generate sampleTime (sampleBytes, none)
        = Except.ok sampleTransactionID
    ∧ sampleRepository.Create samplePayment ([], 5) = ((samplePayment, none), ([samplePayment], 5))
    ∧ completingProcessor.beside.Process samplePayment ([samplePayment], 5)
        = (({ samplePayment with Status := PaymentStatusCompleted }, none), ([samplePayment], 6))
    ∧ CreatePayment (NewPaymentUseCase sampleRepository completingProcessor.beside)
        sampleRuntime.beside sampleInput sampleWorld
      = (Except.ok { samplePayment with Status := PaymentStatusCompleted },
          { state := ([samplePayment], 6)
            calls := [Call.Generate, Call.Create samplePayment, Call.Process samplePayment] })
    ∧ ({ samplePayment with Status := PaymentStatusCompleted } : Payment).Status
        ≠ PaymentStatusPending :=
  ⟨sampleInput_valid, rfl, rfl, rfl, rfl, by decide⟩

/-- C3, amended: for a valid input, when the generator returns the id `tid` (the random
read returned eight bytes and no error), `Create` returns nil and `Process` returns nil,
`CreatePayment` returns no error and the payment it constructed, handed to `Create` and then
to `Process`, as `Process` left it.  The payment as constructed and handed to `Create` has
status pending, amount, currency, description and customer id of the input, metadata with the
order id and payment method of the input, and transaction id `tid`, on which
`ValidateTransactionID` returns nil.  `Process` receives the payment as `Create` left it.
When neither call writes through the pointer, the returned payment is the constructed one. -/
theorem c3_create_payment_returns_shared_payment {σ : Type} (repo : PaymentRepository σ)
    (processor : PaymentProcessor σ) (rt : Runtime σ) (input : CreatePaymentInput)
    (w : World σ) (now createdAt updatedAt : Time) (s1 s2 s3 s4 s5 s6 s7 : σ)
    (b : List Byte) (tid id : GoString) (p1 p2 : Payment)
    (hvalid : ValidInput input)
    (hnow : rt.timeNow w.state = (now, s1))
    (hrand : rt.randRead 8 s1 = ((b, none), s2)) (hb : b.length = 8)
    (hgen : NewPaymentTransactionIDGenerator.Generate now (b, none) = Except.ok tid)
    (huuid : rt.uuidNewString s2 = (id, s3))
    (hc : rt.timeNow s3 = (createdAt, s4)) (hu : rt.timeNow s4 = (updatedAt, s5))
    (hcreate : repo.Create (constructedPayment input id createdAt updatedAt tid) s5
      = ((p1, none), s6))
    (hprocess : processor.Process p1 s6 = ((p2, none), s7)) :
    CreatePayment (NewPaymentUseCase repo processor) rt input w
      = (Except.ok p2,
          { state := s7
            calls := w.calls ++ [Call.Generate,
              Call.Create (constructedPayment input id createdAt updatedAt tid),
              Call.Process p1] })
    ∧ (constructedPayment input id createdAt updatedAt tid).Status = PaymentStatusPending
    ∧ (constructedPayment input id createdAt updatedAt tid).Amount = input.Amount
    ∧ (constructedPayment input id createdAt updatedAt tid).Currency = input.Currency
    ∧ (constructedPayment input id createdAt updatedAt tid).Description = input.Description
    ∧ (constructedPayment input id createdAt updatedAt tid).CustomerID = input.CustomerID
    ∧ (constructedPayment input id createdAt updatedAt tid).Metadata.OrderID = input.OrderID
    ∧ (constructedPayment input id createdAt updatedAt tid).Metadata.PaymentMethod
        = input.PaymentMethod
    ∧ (constructedPayment input id createdAt updatedAt tid).TransactionID = tid
    ∧ ValidateTransactionID (constructedPayment input id createdAt updatedAt tid).TransactionID
        = Run.ret none
    ∧ (p1 = constructedPayment input id createdAt updatedAt tid →
        p2 = constructedPayment input id createdAt updatedAt tid →
        CreatePayment (NewPaymentUseCase repo processor) rt input w
          = (Except.ok (constructedPayment input id createdAt updatedAt tid),
              { state := s7
                calls := w.calls ++ [Call.Generate,
                  Call.Create (constructedPayment input id createdAt updatedAt tid),
                  Call.Process (constructedPayment input id createdAt updatedAt tid)] })) := by
  have hv := (validateCreatePaymentInput_eq_none_iff input).2 hvalid
  have hrun := CreatePayment_ok (NewPaymentUseCase repo processor) rt input w now createdAt
    updatedAt s1 s2 s3 s4 s5 s6 s7 (b, none) tid id p1 p2 hv hnow hrand hgen huuid hc hu
    hcreate hprocess
  refine ⟨hrun, rfl, rfl, rfl, rfl, rfl, rfl, rfl, rfl, ?_, ?_⟩
  · have h := Generate_ok NewPaymentTransactionIDGenerator.generator now b
    have h' : Except.ok tid = (Except.ok (str "PAY" ++ str "_" ++ now.Format20060102150405
        ++ str "_" ++ EncodeToString b) : Except GoError GoString) := hgen.symm.trans h
    have htid : tid = str "PAY" ++ str "_" ++ now.Format20060102150405 ++ str "_"
        ++ EncodeToString b := by
      injection h'
    show ValidateTransactionID tid = Run.ret none
    rw [htid]
    exact generated_id_valid now b hb
  · intro h1 h2
    rw [hrun, h1, h2]

/-- Witness of the amended C3: the sample input against the empty table and the accepting
processor, neither of which writes through the pointer, and against the completing
processor, which does. -/
theorem c3_create_payment_witness :
    ValidInput sampleInput
    ∧ CreatePayment (NewPaymentUseCase sampleRepository acceptingProcessor.beside)
        sampleRuntime.beside sampleInput sampleWorld
      = (Except.ok samplePayment,
          { state := ([samplePayment], 6)
            calls := [Call.Generate, Call.Create samplePayment, Call.Process samplePayment] })
    ∧ samplePayment.Status = PaymentStatusPending
    ∧ ValidateTransactionID samplePayment.TransactionID = Run.ret none
    ∧ CreatePayment (NewPaymentUseCase sampleRepository completingProcessor.beside)
        sampleRuntime.beside sampleInput sampleWorld
      = (Except.ok { samplePayment with Status := PaymentStatusCompleted },
          { state := ([samplePayment], 6)
            calls := [Call.Generate, Call.Create samplePayment,
              Call.Process samplePayment] }) := by
  have h := c3_create_payment_returns_shared_payment sampleRepository
    acceptingProcessor.beside sampleRuntime.beside sampleInput sampleWorld sampleTime
    sampleTime sampleTime ([], 1) ([], 2) ([], 3) ([], 4) ([], 5) ([samplePayment], 5)
    ([samplePayment], 6) sampleBytes sampleTransactionID (str "id-2") samplePayment
    samplePayment sampleInput_valid rfl rfl (by decide) rfl rfl rfl rfl rfl rfl
  have h' := c3_create_payment_returns_shared_payment sampleRepository
    completingProcessor.beside sampleRuntime.beside sampleInput sampleWorld sampleTime
    sampleTime sampleTime ([], 1) ([], 2) ([], 3) ([], 4) ([], 5) ([samplePayment], 5)
    ([samplePayment], 6) sampleBytes sampleTransactionID (str "id-2") samplePayment
    { samplePayment with Status := PaymentStatusCompleted } sampleInput_valid rfl rfl
    (by decide) rfl rfl rfl rfl rfl rfl
  exact ⟨sampleInput_valid, h.2.2.2.2.2.2.2.2.2.2 rfl rfl, h.2.1, h.2.2.2.2.2.2.2.2.2.1, h'.1⟩

/-- C4: for a valid input, a failure of a stage after validation ends `CreatePayment` there.
If the generator returns the error `ge`, the result is no payment and the internal error with
cause `ge`, and the only call made is the generator.  If `Create` returns the error `e`, the
result is no payment and the internal error with cause `e`, and the calls made are the
generator and `Create`.  If `Process` returns the error `e`, the result is no payment and the
internal error with cause `e`, after the generator, `Create` and `Process`.  This holds
whatever the two calls write through the payment pointer. -/
theorem c4_stage_failure_is_internal_error {σ : Type} (repo : PaymentRepository σ)
    (processor : PaymentProcessor σ) (rt : Runtime σ) (input : CreatePaymentInput)
    (w : World σ) (now createdAt updatedAt : Time) (s1 s2 s3 s4 s5 s6 s7 : σ)
    (rand : List Byte × Option GoError) (tid id : GoString) (p1 p2 : Payment)
    (ge e : GoError)
    (hvalid : ValidInput input)
    (hnow : rt.timeNow w.state = (now, s1)) (hrand : rt.randRead 8 s1 = (rand, s2)) :
    (NewPaymentTransactionIDGenerator.Generate now rand = Except.error ge →
      CreatePayment (NewPaymentUseCase repo processor) rt input w
        = (Except.error (NewInternalError (some ge)),
            { state := s2, calls := w.calls ++ [Call.Generate] }))
    ∧ (NewPaymentTransactionIDGenerator.Generate now rand = Except.ok tid →
        rt.uuidNewString s2 = (id, s3) →
        rt.timeNow s3 = (createdAt, s4) → rt.timeNow s4 = (updatedAt, s5) →
        repo.Create (constructedPayment input id createdAt updatedAt tid) s5
          = ((p1, some e), s6) →
        CreatePayment (NewPaymentUseCase repo processor) rt input w
          = (Except.error (NewInternalError (some e)),
              { state := s6
                calls := w.calls ++ [Call.Generate,
                  Call.Create (constructedPayment input id createdAt updatedAt tid)] }))
    ∧ (NewPaymentTransactionIDGenerator.Generate now rand = Except.ok tid →
        rt.uuidNewString s2 = (id, s3) →
        rt.timeNow s3 = (createdAt, s4) → rt.timeNow s4 = (updatedAt, s5) →
        repo.Create (constructedPayment input id createdAt updatedAt tid) s5
          = ((p1, none), s6) →
        processor.Process p1 s6 = ((p2, some e), s7) →
        CreatePayment (NewPaymentUseCase repo processor) rt input w
          = (Except.error (NewInternalError (some e)),
              { state := s7
                calls := w.calls ++ [Call.Generate,
                  Call.Create (constructedPayment input id createdAt updatedAt tid),
                  Call.Process p1] }))
    ∧ (∀ cause : GoError,
        (NewInternalError (some cause)).domainType = some ErrorTypeInternal
        ∧ (NewInternalError (some cause)).cause = some cause) := by
  have hv := (validateCreatePaymentInput_eq_none_iff input).2 hvalid
  refine ⟨?_, ?_, ?_, fun _ => ⟨rfl, rfl⟩⟩
  · intro hgen
    exact CreatePayment_generate_error (NewPaymentUseCase repo processor) rt input w now s1 s2
      rand ge hv hnow hrand hgen
  · intro hgen huuid hc hu hcreate
    exact CreatePayment_create_error (NewPaymentUseCase repo processor) rt input w now
      createdAt updatedAt s1 s2 s3 s4 s5 s6 rand tid id p1 e hv hnow hrand hgen huuid hc hu
      hcreate
  · intro hgen huuid hc hu hcreate hprocess
    exact CreatePayment_process_error (NewPaymentUseCase repo processor) rt input w now
      createdAt updatedAt s1 s2 s3 s4 s5 s6 s7 rand tid id p1 p2 e hv hnow hrand hgen huuid hc
      hu hcreate hprocess

/-- Witness of C4, one run per stage: the random source fails; `Create` fails; `Process`
fails. -/
theorem c4_stage_failure_witness :
    ValidInput sampleInput
    ∧ CreatePayment (NewPaymentUseCase sampleRepository acceptingProcessor.beside)
        brokenRandRuntime.beside sampleInput sampleWorld
      = (Except.error (NewInternalError (some
            (GoError.errorf (str "failed to generate random bytes: %w")
              (GoError.foreign (str "entropy source unavailable"))))),
          { state := ([], 2), calls := [Call.Generate] })
    ∧ CreatePayment (NewPaymentUseCase failingRepository acceptingProcessor.beside)
        sampleRuntime.beside sampleInput sampleWorld
      = (Except.error (NewInternalError (some (NewNotFoundError (str "payment not found")))),
          { state := ([], 5), calls := [Call.Generate, Call.Create samplePayment] })
    ∧ CreatePayment (NewPaymentUseCase sampleRepository decliningProcessor.beside)
        sampleRuntime.beside sampleInput sampleWorld
      = (Except.error (NewInternalError (some (GoError.foreign (str "declined")))),
          { state := ([samplePayment], 6)
            calls := [Call.Generate, Call.Create samplePayment,
              Call.Process samplePayment] }) :=
  ⟨sampleInput_valid,
    (c4_stage_failure_is_internal_error sampleRepository acceptingProcessor.beside
      brokenRandRuntime.beside sampleInput sampleWorld sampleTime sampleTime sampleTime
      ([], 1) ([], 2) ([], 3) ([], 4) ([], 5) ([], 5) ([], 6)
      (List.replicate 8 0, some (GoError.foreign (str "entropy source unavailable")))
      sampleTransactionID (str "id-2") samplePayment samplePayment
      (GoError.errorf (str "failed to generate random bytes: %w")
        (GoError.foreign (str "entropy source unavailable")))
      (GoError.foreign (str "declined")) sampleInput_valid rfl rfl).1 rfl,
    (c4_stage_failure_is_internal_error failingRepository acceptingProcessor.beside
      sampleRuntime.beside sampleInput sampleWorld sampleTime sampleTime sampleTime
      ([], 1) ([], 2) ([], 3) ([], 4) ([], 5) ([], 5) ([], 6) (sampleBytes, none)
      sampleTransactionID (str "id-2") samplePayment samplePayment
      (GoError.foreign (str "unused"))
      (NewNotFoundError (str "payment not found")) sampleInput_valid rfl rfl).2.1
      rfl rfl rfl rfl rfl,
    (c4_stage_failure_is_internal_error sampleRepository decliningProcessor.beside
      sampleRuntime.beside sampleInput sampleWorld sampleTime sampleTime sampleTime
      ([], 1) ([], 2) ([], 3) ([], 4) ([], 5) ([samplePayment], 5) ([samplePayment], 6)
      (sampleBytes, none) sampleTransactionID (str "id-2") samplePayment samplePayment
      (GoError.foreign (str "unused"))
      (GoError.foreign (str "declined")) sampleInput_valid rfl rfl).2.2.1
      rfl rfl rfl rfl rfl rfl⟩

/-! ### The use case over the table -/

theorem Store.Create_none (payment : Payment) (rows : Store)
    (h : (Store.Create payment rows).1 = none) :
    Store.Create payment rows = (none, rows ++ [payment])
    ∧ rows.find? (fun r => decide (r.ID = payment.ID)) = none := by
  unfold Store.Create at h ⊢
  by_cases h1 : rows.any (fun r => decide (r.ID = payment.ID)) = true
  · simp [h1] at h
  · by_cases h2 : rows.any (fun r => decide (r.TransactionID = payment.TransactionID)) = true
    · simp [h1, h2] at h
    · refine ⟨by simp [h1, h2], ?_⟩
      rw [List.find?_eq_none]
      intro r hr hd
      exact h1 (List.any_eq_true.2 ⟨r, hr, hd⟩)

theorem Store.FindByID_after_Create (payment : Payment) (rows : Store)
    (h : (Store.Create payment rows).1 = none) :
    Store.FindByID payment.ID (rows ++ [payment]) = (Except.ok payment, rows ++ [payment]) := by
  have hf := (Store.Create_none payment rows h).2
  unfold Store.FindByID
  rw [List.find?_append, hf]
  simp [List.find?]

/-- C5: over the table repository, for a valid input for which `Create` succeeds and
`Process` fails with `e`, `CreatePayment` returns the internal error with cause `e`; the
table afterwards is the table before with the one constructed row, of status pending, added
at the end; the calls made are the generator, `Create` and `Process` (no `Update`, no
`Cancel`); and `GetPayment` for the id of that row then returns the row, of status pending.
This holds whatever `Process` writes through the payment pointer (`p2`): the row is a copy. -/
theorem c5_process_failure_leaves_pending_row {τ : Type}
    (update : Payment → Store × τ → (Payment × Option GoError) × (Store × τ))
    (list : Int → Int → Store → Except GoError (List Payment))
    (processor : PaymentProcessor τ) (rt : Runtime τ) (input : CreatePaymentInput)
    (rows : Store) (calls : List Call) (now createdAt updatedAt : Time)
    (t0 t1 t2 t3 t4 t5 t6 : τ) (b : List Byte) (tid id : GoString) (p2 : Payment)
    (e : GoError)
    (hvalid : ValidInput input)
    (hnow : rt.timeNow t0 = (now, t1)) (hrand : rt.randRead 8 t1 = ((b, none), t2))
    (hgen : NewPaymentTransactionIDGenerator.Generate now (b, none) = Except.ok tid)
    (huuid : rt.uuidNewString t2 = (id, t3))
    (hc : rt.timeNow t3 = (createdAt, t4)) (hu : rt.timeNow t4 = (updatedAt, t5))
    (hcreate : (Store.Create (constructedPayment input id createdAt updatedAt tid) rows).1
      = none)
    (hprocess : processor.Process (constructedPayment input id createdAt updatedAt tid) t5
      = ((p2, some e), t6)) :
    CreatePayment (NewPaymentUseCase (storeRepository update list) processor.beside) rt.beside
        input { state := (rows, t0), calls := calls }
      = (Except.error (NewInternalError (some e)),
          { state := (rows ++ [constructedPayment input id createdAt updatedAt tid], t6)
            calls := calls ++ [Call.Generate,
              Call.Create (constructedPayment input id createdAt updatedAt tid),
              Call.Process (constructedPayment input id createdAt updatedAt tid)] })
    ∧ (NewInternalError (some e)).domainType = some ErrorTypeInternal
    ∧ (constructedPayment input id createdAt updatedAt tid).Status = PaymentStatusPending
    ∧ (∀ q, Call.Update q ∉ [Call.Generate,
              Call.Create (constructedPayment input id createdAt updatedAt tid),
              Call.Process (constructedPayment input id createdAt updatedAt tid)]
          ∧ Call.Cancel q ∉ [Call.Generate,
              Call.Create (constructedPayment input id createdAt updatedAt tid),
              Call.Process (constructedPayment input id createdAt updatedAt tid)])
    ∧ GetPayment (NewPaymentUseCase (storeRepository update list) processor.beside)
        (constructedPayment input id createdAt updatedAt tid).ID
        { state := (rows ++ [constructedPayment input id createdAt updatedAt tid], t6)
          calls := calls ++ [Call.Generate,
              Call.Create (constructedPayment input id createdAt updatedAt tid),
              Call.Process (constructedPayment input id createdAt updatedAt tid)] }
      = (Except.ok (constructedPayment input id createdAt updatedAt tid),
          { state := (rows ++ [constructedPayment input id createdAt updatedAt tid], t6)
            calls := calls ++ [Call.Generate,
              Call.Create (constructedPayment input id createdAt updatedAt tid),
              Call.Process (constructedPayment input id createdAt updatedAt tid)]
              ++ [Call.FindByID (constructedPayment input id createdAt updatedAt tid).ID] }) := by
  have hv := (validateCreatePaymentInput_eq_none_iff input).2 hvalid
  have hcr := (Store.Create_none _ rows hcreate).1
  have hfind := Store.FindByID_after_Create _ rows hcreate
  refine ⟨?_, rfl, rfl, ?_, ?_⟩
  · exact CreatePayment_process_error
      (NewPaymentUseCase (storeRepository update list) processor.beside) rt.beside input
      { state := (rows, t0), calls := calls } now createdAt updatedAt (rows, t1) (rows, t2)
      (rows, t3) (rows, t4) (rows, t5)
      (rows ++ [constructedPayment input id createdAt updatedAt tid], t5)
      (rows ++ [constructedPayment input id createdAt updatedAt tid], t6) (b, none) tid id
      (constructedPayment input id createdAt updatedAt tid) p2 e hv
      (by simp [Runtime.beside, hnow]) (by simp [Runtime.beside, hrand]) hgen
      (by simp [Runtime.beside, huuid]) (by simp [Runtime.beside, hc])
      (by simp [Runtime.beside, hu])
      (by simp [NewPaymentUseCase, storeRepository, hcr])
      (by simp [NewPaymentUseCase, PaymentProcessor.beside, hprocess])
  · intro q
    simp
  · simp [GetPayment, invoke, NewPaymentUseCase, storeRepository, hfind]

/-- Witness of C5: the sample input against the empty table and the declining processor. -/
theorem c5_process_failure_witness :
    ValidInput sampleInput
    ∧ (Store.Create samplePayment []).1 = none
    ∧ CreatePayment (NewPaymentUseCase sampleRepository decliningProcessor.beside)
        sampleRuntime.beside sampleInput sampleWorld
      = (Except.error (NewInternalError (some (GoError.foreign (str "declined")))),
          { state := ([samplePayment], 6)
            calls := [Call.Generate, Call.Create samplePayment,
              Call.Process samplePayment] })
    ∧ GetPayment (NewPaymentUseCase sampleRepository decliningProcessor.beside)
        samplePayment.ID
        { state := ([samplePayment], 6)
          calls := [Call.Generate, Call.Create samplePayment, Call.Process samplePayment] }
      = (Except.ok samplePayment,
          { state := ([samplePayment], 6)
            calls := [Call.Generate, Call.Create samplePayment, Call.Process samplePayment,
              Call.FindByID samplePayment.ID] }) := by
  have h := c5_process_failure_leaves_pending_row (fun payment s => ((payment, none), s))
    (fun _ _ rows => Except.ok rows) decliningProcessor sampleRuntime sampleInput [] []
    sampleTime sampleTime sampleTime 0 1 2 3 4 5 6 sampleBytes sampleTransactionID (str "id-2")
    samplePayment (GoError.foreign (str "declined")) sampleInput_valid rfl rfl rfl rfl rfl rfl
    rfl rfl
  exact ⟨sampleInput_valid, rfl, h.1, h.2.2.2.2⟩

/-! ### Listing and error propagation -/

theorem GetPayment_eq {σ : Type} (uc : PaymentUseCase σ) (id : GoString) (w : World σ) :
    GetPayment uc id w
      = ((uc.repo.FindByID id w.state).1,
          { state := (uc.repo.FindByID id w.state).2, calls := w.calls ++ [Call.FindByID id] }) := by
  unfold GetPayment invoke
  generalize uc.repo.FindByID id w.state = r
  rcases r with ⟨_ | _, _⟩ <;> rfl

theorem ListPayments_eq {σ : Type} (uc : PaymentUseCase σ) (limit offset : Int) (w : World σ) :
    ListPayments uc limit offset w
      = ((uc.repo.List (if limit ≤ 0 then 10 else limit) (if offset < 0 then 0 else offset)
            w.state).1,
          { state := (uc.repo.List (if limit ≤ 0 then 10 else limit)
              (if offset < 0 then 0 else offset) w.state).2
            calls := w.calls ++ [Call.List (if limit ≤ 0 then 10 else limit)
              (if offset < 0 then 0 else offset)] }) := by
  unfold ListPayments invoke
  dsimp only
  generalize uc.repo.List (if limit ≤ 0 then 10 else limit) (if offset < 0 then 0 else offset)
    w.state = r
  rcases r with ⟨_ | _, _⟩ <;> rfl

/-- C9: `ListPayments` makes exactly one collaborator call, repository `List` with the limit
replaced by 10 when it is `<= 0` and the offset replaced by 0 when it is `< 0`, and returns
the result and the state of that call; so `ListPayments(-5, -1)` equals `ListPayments(10, 0)`
on the same world, and `ListPayments` on already normalised arguments equals `ListPayments`
on the original ones. -/
theorem c9_list_payments_normalises (σ : Type) (uc : PaymentUseCase σ) (limit offset : Int)
    (w : World σ) :
    ListPayments uc limit offset w
      = ((uc.repo.List (if limit ≤ 0 then 10 else limit) (if offset < 0 then 0 else offset)
            w.state).1,
          { state := (uc.repo.List (if limit ≤ 0 then 10 else limit)
              (if offset < 0 then 0 else offset) w.state).2
            calls := w.calls ++ [Call.List (if limit ≤ 0 then 10 else limit)
              (if offset < 0 then 0 else offset)] })
    ∧ ListPayments uc (-5) (-1) w = ListPayments uc 10 0 w
    ∧ ListPayments uc (if limit ≤ 0 then 10 else limit) (if offset < 0 then 0 else offset) w
        = ListPayments uc limit offset w := by
  refine ⟨ListPayments_eq uc limit offset w, ?_, ?_⟩
  · rw [ListPayments_eq, ListPayments_eq]
    rfl
  · rw [ListPayments_eq, ListPayments_eq]
    have h1 : (if (if limit ≤ 0 then 10 else limit) ≤ 0 then (10 : Int)
        else (if limit ≤ 0 then 10 else limit)) = (if limit ≤ 0 then 10 else limit) := by
      by_cases h : limit ≤ 0
      · simp [h]
      · simp [h]
    have h2 : (if (if offset < 0 then 0 else offset) < 0 then (0 : Int)
        else (if offset < 0 then 0 else offset)) = (if offset < 0 then 0 else offset) := by
      by_cases h : offset < 0
      · simp [h]
      · simp [h]
    rw [h1, h2]

/-- C10, as stated, fails on the code in both directions.  `Create` of the failing
repository returns a NotFound domain error, and `CreatePayment` does not return it unchanged
but returns an internal error that wraps it.  `FindByID` and `List` of the failing repository
return a driver error, which is not a NotFound domain error, and `GetPayment` and
`ListPayments` return it unchanged, not an error of type internal. -/
theorem c10_counterexample :
    (failingRepository.Create samplePayment ([], 5)).1.2
        = some (NewNotFoundError (str "payment not found"))
    ∧ (NewNotFoundError (str "payment not found")).domainType = some ErrorTypeNotFound
    ∧ (CreatePayment (NewPaymentUseCase failingRepository acceptingProcessor.beside)
        sampleRuntime.beside sampleInput sampleWorld).1
      = Except.error (NewInternalError (some (NewNotFoundError (str "payment not found"))))
    ∧ NewInternalError (some (NewNotFoundError (str "payment not found")))
        ≠ NewNotFoundError (str "payment not found")
    ∧ (failingRepository.FindByID (str "id-2") sampleWorld.state).1
        = Except.error (GoError.foreign (str "connection refused"))
    ∧ (GoError.foreign (str "connection refused")).domainType ≠ some ErrorTypeNotFound
    ∧ (GetPayment (NewPaymentUseCase failingRepository acceptingProcessor.beside)
        (str "id-2") sampleWorld).1
      = Except.error (GoError.foreign (str "connection refused"))
    ∧ (ListPayments (NewPaymentUseCase failingRepository acceptingProcessor.beside)
        10 0 sampleWorld).1
      = Except.error (GoError.foreign (str "connection refused"))
    ∧ (GoError.foreign (str "connection refused")).domainType ≠ some ErrorTypeInternal := by
  refine ⟨rfl, rfl, rfl, ?_, rfl, by decide, rfl, rfl, by decide⟩
  intro h
  have h' := congrArg GoError.domainType h
  revert h'
  decide

/-- C10, amended: `CreatePayment` wraps every error `e` returned by `Create` or by
`Process`, a NotFound domain error included, as the internal error with cause `e`;
`GetPayment` and `ListPayments` return every error `e` of their repository call unchanged,
whatever its kind; and over the table repository `GetPayment` for an id that no row has
returns the NotFound domain error, which is not of type internal.  The first part holds
whatever `Create` and `Process` write through the payment pointer. -/
theorem c10_error_propagation {σ τ : Type} (uc : PaymentUseCase σ) (rt : Runtime σ)
    (input : CreatePaymentInput) (w : World σ) (now createdAt updatedAt : Time)
    (s1 s2 s3 s4 s5 s6 s7 s8 : σ) (rand : List Byte × Option GoError) (tid id : GoString)
    (limit offset : Int) (p1 p2 : Payment) (e : GoError)
    (update : Payment → Store × τ → (Payment × Option GoError) × (Store × τ))
    (list : Int → Int → Store → Except GoError (List Payment))
    (processor : PaymentProcessor (Store × τ)) (rows : Store) (t : τ) (calls : List Call) :
    (validateCreatePaymentInput input = none →
        rt.timeNow w.state = (now, s1) → rt.randRead 8 s1 = (rand, s2) →
        uc.txIDGenerator.Generate now rand = Except.ok tid →
        rt.uuidNewString s2 = (id, s3) →
        rt.timeNow s3 = (createdAt, s4) → rt.timeNow s4 = (updatedAt, s5) →
        uc.repo.Create (constructedPayment input id createdAt updatedAt tid) s5
          = ((p1, some e), s6) →
        (CreatePayment uc rt input w).1 = Except.error (NewInternalError (some e)))
    ∧ (validateCreatePaymentInput input = none →
        rt.timeNow w.state = (now, s1) → rt.randRead 8 s1 = (rand, s2) →
        uc.txIDGenerator.Generate now rand = Except.ok tid →
        rt.uuidNewString s2 = (id, s3) →
        rt.timeNow s3 = (createdAt, s4) → rt.timeNow s4 = (updatedAt, s5) →
        uc.repo.Create (constructedPayment input id createdAt updatedAt tid) s5
          = ((p1, none), s6) →
        uc.processor.Process p1 s6 = ((p2, some e), s7) →
        (CreatePayment uc rt input w).1 = Except.error (NewInternalError (some e)))
    ∧ (uc.repo.FindByID id w.state = (Except.error e, s8) →
        GetPayment uc id w
          = (Except.error e, { state := s8, calls := w.calls ++ [Call.FindByID id] }))
    ∧ (uc.repo.List (if limit ≤ 0 then 10 else limit) (if offset < 0 then 0 else offset)
          w.state = (Except.error e, s8) →
        ListPayments uc limit offset w
          = (Except.error e,
              { state := s8
                calls := w.calls ++ [Call.List (if limit ≤ 0 then 10 else limit)
                  (if offset < 0 then 0 else offset)] }))
    ∧ ((∀ r ∈ rows, r.ID ≠ id) →
        GetPayment (NewPaymentUseCase (storeRepository update list) processor) id
            { state := (rows, t), calls := calls }
          = (Except.error (NewNotFoundError (str "payment not found")),
              { state := (rows, t), calls := calls ++ [Call.FindByID id] })
        ∧ (NewNotFoundError (str "payment not found")).domainType = some ErrorTypeNotFound
        ∧ (NewNotFoundError (str "payment not found")).domainType
            ≠ some ErrorTypeInternal) := by
  refine ⟨?_, ?_, ?_, ?_, ?_⟩
  · intro hv hnow hrand hgen huuid hc hu hcreate
    rw [CreatePayment_create_error uc rt input w now createdAt updatedAt s1 s2 s3 s4 s5 s6
      rand tid id p1 e hv hnow hrand hgen huuid hc hu hcreate]
  · intro hv hnow hrand hgen huuid hc hu hcreate hprocess
    rw [CreatePayment_process_error uc rt input w now createdAt updatedAt s1 s2 s3 s4 s5 s6
      s7 rand tid id p1 p2 e hv hnow hrand hgen huuid hc hu hcreate hprocess]
  · intro h
    rw [GetPayment_eq, h]
  · intro h
    rw [ListPayments_eq, h]
  · intro habsent
    have hfind : rows.find? (fun r => decide (r.ID = id)) = none := by
      rw [List.find?_eq_none]
      intro r hr hd
      exact habsent r hr (of_decide_eq_true hd)
    refine ⟨?_, rfl, by decide⟩
    simp [GetPayment_eq, NewPaymentUseCase, storeRepository, Store.FindByID, hfind]

/-- Witness of the amended C10: `Create` fails with NotFound and is wrapped; `Create`
succeeds, `Process` declines and is wrapped; `FindByID` and `List` fail with a driver error
that is returned unchanged; and an absent id in the empty table gives NotFound. -/
theorem c10_error_propagation_witness :
    (CreatePayment (NewPaymentUseCase failingRepository acceptingProcessor.beside)
        sampleRuntime.beside sampleInput sampleWorld).1
      = Except.error (NewInternalError (some (NewNotFoundError (str "payment not found"))))
    ∧ (CreatePayment (NewPaymentUseCase sampleRepository decliningProcessor.beside)
        sampleRuntime.beside sampleInput sampleWorld).1
      = Except.error (NewInternalError (some (GoError.foreign (str "declined"))))
    ∧ GetPayment (NewPaymentUseCase failingRepository acceptingProcessor.beside)
        (str "id-2") sampleWorld
      = (Except.error (GoError.foreign (str "connection refused")),
          { state := ([], 0), calls := [Call.FindByID (str "id-2")] })
    ∧ ListPayments (NewPaymentUseCase failingRepository acceptingProcessor.beside)
        (-5) (-1) sampleWorld
      = (Except.error (GoError.foreign (str "connection refused")),
          { state := ([], 0), calls := [Call.List 10 0] })
    ∧ GetPayment (NewPaymentUseCase sampleRepository acceptingProcessor.beside)
        (str "id-2") sampleWorld
      = (Except.error (NewNotFoundError (str "payment not found")),
          { state := ([], 0), calls := [Call.FindByID (str "id-2")] }) :=
  ⟨(c10_error_propagation (NewPaymentUseCase failingRepository acceptingProcessor.beside)
      sampleRuntime.beside sampleInput sampleWorld sampleTime sampleTime sampleTime
      ([], 1) ([], 2) ([], 3) ([], 4) ([], 5) ([], 5) ([], 6) ([], 0) (sampleBytes, none)
      sampleTransactionID (str "id-2") (-5) (-1) samplePayment samplePayment
      (NewNotFoundError (str "payment not found"))
      (fun payment s => ((payment, none), s)) (fun _ _ rows => Except.ok rows) acceptingProcessor.beside
      [] (0 : Nat) []).1 rfl rfl rfl rfl rfl rfl rfl rfl,
    (c10_error_propagation (NewPaymentUseCase sampleRepository decliningProcessor.beside)
      sampleRuntime.beside sampleInput sampleWorld sampleTime sampleTime sampleTime
      ([], 1) ([], 2) ([], 3) ([], 4) ([], 5) ([samplePayment], 5) ([samplePayment], 6)
      ([], 0) (sampleBytes, none) sampleTransactionID (str "id-2") (-5) (-1) samplePayment
      samplePayment (GoError.foreign (str "declined"))
      (fun payment s => ((payment, none), s)) (fun _ _ rows => Except.ok rows) acceptingProcessor.beside
      [] (0 : Nat) []).2.1 rfl rfl rfl rfl rfl rfl rfl rfl rfl,
    (c10_error_propagation (NewPaymentUseCase failingRepository acceptingProcessor.beside)
      sampleRuntime.beside sampleInput sampleWorld sampleTime sampleTime sampleTime
      ([], 1) ([], 2) ([], 3) ([], 4) ([], 5) ([], 5) ([], 6) ([], 0) (sampleBytes, none)
      sampleTransactionID (str "id-2") (-5) (-1) samplePayment samplePayment
      (GoError.foreign (str "connection refused"))
      (fun payment s => ((payment, none), s)) (fun _ _ rows => Except.ok rows) acceptingProcessor.beside
      [] (0 : Nat) []).2.2.1 rfl,
    (c10_error_propagation (NewPaymentUseCase failingRepository acceptingProcessor.beside)
      sampleRuntime.beside sampleInput sampleWorld sampleTime sampleTime sampleTime
      ([], 1) ([], 2) ([], 3) ([], 4) ([], 5) ([], 5) ([], 6) ([], 0) (sampleBytes, none)
      sampleTransactionID (str "id-2") (-5) (-1) samplePayment samplePayment
      (GoError.foreign (str "connection refused"))
      (fun payment s => ((payment, none), s)) (fun _ _ rows => Except.ok rows) acceptingProcessor.beside
      [] (0 : Nat) []).2.2.2.1 rfl,
    ((c10_error_propagation (NewPaymentUseCase failingRepository acceptingProcessor.beside)
      sampleRuntime.beside sampleInput sampleWorld sampleTime sampleTime sampleTime
      ([], 1) ([], 2) ([], 3) ([], 4) ([], 5) ([], 5) ([], 6) ([], 0) (sampleBytes, none)
      sampleTransactionID (str "id-2") (-5) (-1) samplePayment samplePayment
      (GoError.foreign (str "connection refused"))
      (fun payment s => ((payment, none), s)) (fun _ _ rows => Except.ok rows) acceptingProcessor.beside
      [] (0 : Nat) []).2.2.2.2 (by simp)).1⟩

/-! ### The handlers -/

theorem Atoi_samples :
    Atoi (str "25") = Except.ok 25 ∧ Atoi (str "-7") = Except.ok (-7)
    ∧ Atoi (str "+12") = Except.ok 12 ∧ Atoi (str "0") = Except.ok 0
    ∧ Atoi (str "") = Except.error (GoError.foreign (str "strconv.Atoi: invalid syntax"))
    ∧ Atoi (str "-") = Except.error (GoError.foreign (str "strconv.Atoi: invalid syntax"))
    ∧ Atoi (str "1x") = Except.error (GoError.foreign (str "strconv.Atoi: invalid syntax"))
    ∧ Atoi (str "9223372036854775807") = Except.ok 9223372036854775807
    ∧ Atoi (str "9223372036854775808")
        = Except.error (GoError.foreign (str "strconv.Atoi: value out of range"))
    ∧ Atoi (str "-9223372036854775808") = Except.ok (-9223372036854775808) :=
  ⟨rfl, rfl, rfl, rfl, rfl, rfl, rfl, rfl, rfl, rfl⟩

theorem validateCreatePaymentInput_ignores_description (input : CreatePaymentInput)
    (description : GoString) :
    validateCreatePaymentInput { input with Description := description }
      = validateCreatePaymentInput input := rfl

/-- The validator accepts a valid input with any description and any non-empty customer
id put in their place: no length is tested. -/
theorem validateCreatePaymentInput_any_text (input : CreatePaymentInput)
    (description customerID : GoString) (hvalid : ValidInput input) (hc : customerID ≠ []) :
    validateCreatePaymentInput
      { input with Description := description, CustomerID := customerID } = none := by
  obtain ⟨a1, a2, a3, _, a5⟩ := hvalid
  exact (validateCreatePaymentInput_eq_none_iff _).2 ⟨a1, a2, a3, hc, a5⟩

/-- C11 fails on the code: the validator accepts `longInput`, whose description has 501
bytes (more than `MaxDescriptionLength`) and whose customer id has 101 bytes (more than
`MaxCustomerIDLength`), and `CreatePayment` constructs, persists and returns a payment with
these two fields. -/
theorem c11_overlong_text_fields_accepted :
    validateCreatePaymentInput longInput = none
    ∧ longInput.Description.length = 501 ∧ MaxDescriptionLength < longInput.Description.length
    ∧ longInput.CustomerID.length = 101 ∧ MaxCustomerIDLength < longInput.CustomerID.length
    ∧ CreatePayment (NewPaymentUseCase sampleRepository acceptingProcessor.beside)
        sampleRuntime.beside longInput sampleWorld
      = (Except.ok longPayment,
          { state := ([longPayment], 6)
            calls := [Call.Generate, Call.Create longPayment, Call.Process longPayment] })
    ∧ longPayment.Description.length = 501 ∧ longPayment.CustomerID.length = 101 := by
  have hv : validateCreatePaymentInput longInput = none :=
    validateCreatePaymentInput_any_text sampleInput (List.replicate 501 120)
      (List.replicate 101 99) sampleInput_valid (by simp)
  have hd : longInput.Description.length = 501 := List.length_replicate 501 (120 : Byte)
  have hc : longInput.CustomerID.length = 101 := List.length_replicate 101 (99 : Byte)
  refine ⟨hv, hd, ?_, hc, ?_, ?_, hd, hc⟩
  · rw [hd]
    decide
  · rw [hc]
    decide
  · exact CreatePayment_ok (NewPaymentUseCase sampleRepository acceptingProcessor.beside)
      sampleRuntime.beside longInput sampleWorld sampleTime sampleTime sampleTime
      ([], 1) ([], 2) ([], 3) ([], 4) ([], 5) ([longPayment], 5) ([longPayment], 6)
      (sampleBytes, none) sampleTransactionID (str "id-2") longPayment longPayment hv rfl rfl
      rfl rfl rfl rfl rfl rfl

/-- The status `handleError` writes, for every error: 400 for a domain error of type
validation, 404 for every other domain error, 500 for an error that is not a domain error. -/
theorem handleError_status (err : GoError) :
    (handleError err).status
      = match err.domainType with
        | some typ => if typ = ErrorTypeValidation then 400 else 404
        | none => 500 := by
  cases err with
  | model typ message cause =>
    simp only [handleError, GoError.domainType]
    by_cases h1 : typ = ErrorTypeValidation
    · simp [h1, writeError, writeJSON, StatusBadRequest]
    · by_cases h2 : typ = ErrorTypeNotFound
      · rw [if_neg h1, if_pos h2, if_neg h1]
        rfl
      · rw [if_neg h1, if_neg h2, if_neg h1]
        rfl
  | errorf format wrapped => rfl
  | foreign msg => rfl

/-- C12 fails on the code for the type internal: `handleError` writes 400 for a validation
error, 404 for a NotFound error and 500 for an error that is not a domain error, but for the
internal error it writes 404, which is not a 5xx status. -/
theorem c12_handleError_internal_gets_404 :
    (handleError (NewValidationError (str "amount must be positive"))).status = 400
    ∧ (handleError (NewNotFoundError (str "payment not found"))).status = 404
    ∧ (handleError (GoError.foreign (str "connection refused"))).status = 500
    ∧ handleError (NewInternalError (some (GoError.foreign (str "connection refused"))))
        = { status := 404
            data := ResponseData.error
              { Error := str "Not Found", Message := str "internal error occurred",
                Code := str "ERR_404" } }
    ∧ ¬ (500 ≤ (handleError
          (NewInternalError (some (GoError.foreign (str "connection refused"))))).status
        ∧ (handleError
          (NewInternalError (some (GoError.foreign (str "connection refused"))))).status
          ≤ 599) := by
  refine ⟨by decide, by decide, by decide, by decide, by decide⟩

/-- The arguments of the use-case call of the list handler: a limit parameter that parses
to `l > 0` gives the limit 1 whatever `l` is, and an offset parameter that parses to
`o >= 0` gives the offset `o`. -/
theorem PaymentHandler.ListPayments_parsed {σ : Type} (h : PaymentHandler σ) (r : Request)
    (w : World σ) (l o : Int)
    (hl : Atoi (r.QueryGet (str "limit")) = Except.ok l) (hlpos : l > 0)
    (ho : Atoi (r.QueryGet (str "offset")) = Except.ok o) (hopos : o ≥ 0) :
    (h.ListPayments r w).2 = (GoApi.ListPayments h.paymentUseCase 1 o w).2 := by
  have hl0 : r.QueryGet (str "limit") ≠ [] := by
    intro h0
    rw [h0] at hl
    cases hl
  have ho0 : r.QueryGet (str "offset") ≠ [] := by
    intro h0
    rw [h0] at ho
    cases ho
  unfold PaymentHandler.ListPayments
  simp only [hl, ho, hl0, ho0, hlpos, hopos, ne_eq, not_false_eq_true, if_true]
  generalize GoApi.ListPayments h.paymentUseCase 1 o w = res
  rcases res with ⟨_ | _, _⟩ <;> rfl

/-- The use-case call of the list handler when both parameters are absent: the defaults
10 and 0. -/
theorem PaymentHandler.ListPayments_absent {σ : Type} (h : PaymentHandler σ) (r : Request)
    (w : World σ) (hl : r.QueryGet (str "limit") = []) (ho : r.QueryGet (str "offset") = []) :
    (h.ListPayments r w).2 = (GoApi.ListPayments h.paymentUseCase 10 0 w).2 := by
  unfold PaymentHandler.ListPayments
  simp only [hl, ho, ne_eq, not_true_eq_false, if_false]
  generalize GoApi.ListPayments h.paymentUseCase 10 0 w = res
  rcases res with ⟨_ | _, _⟩ <;> rfl

/-- C13 fails on the code for the limit: on the request `?limit=25&offset=3`, whose limit
parses to 25 and whose offset parses to 3, the list handler calls the use case, and through
it repository `List`, with limit 1 and offset 3, not with limit 25. -/
theorem c13_list_handler_passes_limit_one :
    Atoi (sampleListRequest.QueryGet (str "limit")) = Except.ok 25
    ∧ Atoi (sampleListRequest.QueryGet (str "offset")) = Except.ok 3
    ∧ (NewPaymentHandler
          (NewPaymentUseCase sampleRepository acceptingProcessor.beside)).ListPayments
        sampleListRequest sampleWorld
      = (writeJSON StatusOK (ResponseData.payments []),
          { state := ([], 0), calls := [Call.List 1 3] })
    ∧ (GoApi.ListPayments (NewPaymentUseCase sampleRepository acceptingProcessor.beside)
        25 3 sampleWorld).2.calls = [Call.List 25 3]
    ∧ [Call.List 1 3] ≠ [Call.List 25 3] :=
  ⟨rfl, rfl, rfl, rfl, by decide⟩

end GoApi
